import Mathlib

/-!
Verification development for the GreenOPS Advisor backend
(`backend/utils.py`, `backend/ai_advisor.py`, `backend/main.py`,
`backend/security.py`, `backend/registry.py`).

Modelling conventions:
* Python floats are modelled as exact rationals (`ℚ`).  Every numeric fact
  proved below is insensitive to binary floating-point rounding (the claims
  compare exactly representable values or strict inequalities with wide
  margins).
* Python dicts / parsed YAML / parsed JSON values are modelled by the
  inductive type `Val`; dicts are association lists in insertion order,
  which matches dict iteration and `yaml.safe_dump` key behaviour.
* Python functions that can raise are modelled with `Except String` /
  `Option`; the string payload of an error is a description, never inspected.
* `str.strip` is modelled for the ASCII whitespace actually occurring in the
  repository's inputs (space, tab, newline, carriage return).
-/

/-- A parsed Python/JSON/YAML-style value.  Python dicts are modelled as
association lists in insertion order. -/
inductive Val where
  | null : Val
  | bool : Bool → Val
  | num : ℚ → Val
  | str : String → Val
  | list : List Val → Val
  | obj : List (String × Val) → Val
deriving Repr

/-- An association list standing for a Python dict. -/
abbrev Obj := List (String × Val)

/-- `d.get(k)` on a Python dict: first binding of the key, if any. -/
def pyGet : Obj → String → Option Val
  | [], _ => none
  | (k', v) :: rest, k => if k' = k then some v else pyGet rest k

/-- `d.get(k, default)` on a Python dict. -/
def pyGetD (o : Obj) (k : String) (d : Val) : Val :=
  match pyGet o k with
  | some v => v
  | none => d

/-- `k in d` on a Python dict. -/
def hasKey (o : Obj) (k : String) : Bool :=
  (pyGet o k).isSome

/-- `d[k] = v` on a Python dict: replace the existing binding in place,
otherwise append at the end (dict insertion-order semantics). -/
def objSet : Obj → String → Val → Obj
  | [], k, v => [(k, v)]
  | (k', v') :: rest, k, v =>
      if k' = k then (k, v) :: rest else (k', v') :: objSet rest k v

/-- Python truthiness of a value. -/
def truthy : Val → Bool
  | .null => false
  | .bool b => b
  | .num q => decide (q ≠ 0)
  | .str s => decide (s ≠ "")
  | .list xs => !xs.isEmpty
  | .obj xs => !xs.isEmpty

/-- View a value as a dict, when it is one. -/
def asObj : Val → Option Obj
  | .obj o => some o
  | _ => none

/-- View a value as a list, when it is one. -/
def asList : Val → Option (List Val)
  | .list xs => some xs
  | _ => none

/-- Python `str(v)` as far as it is exercised here (interpolation into
explanation text).  The rendering of containers is abbreviated; no claim
inspects those renderings. -/
def pyStr : Val → String
  | .null => "None"
  | .bool b => if b then "True" else "False"
  | .num q => toString q
  | .str s => s
  | .list _ => "[...]"
  | .obj _ => "\x7b...\x7d"

/-- Python `v == "lit"` for a string literal: equal strings compare equal,
any non-string value compares unequal. -/
def pyEqStr (v : Val) (s : String) : Bool :=
  match v with
  | .str t => t == s
  | _ => false

/-! ### Character-level string utilities (Python `str` methods) -/

/-- ASCII whitespace stripped by `str.strip()` on the inputs occurring here. -/
def isPyWs (c : Char) : Bool :=
  c == ' ' || c == '\t' || c == '\n' || c == '\r'

/-- Drop leading whitespace. -/
def stripLeft : List Char → List Char
  | [] => []
  | c :: cs => if isPyWs c then stripLeft cs else c :: cs

/-- `str.strip()` on a character list. -/
def pyStrip (cs : List Char) : List Char :=
  ((stripLeft ((stripLeft cs).reverse)).reverse)

/-- Python `str.upper()` on one ASCII character. -/
def pyUpperChar (c : Char) : Char :=
  if 'a' ≤ c ∧ c ≤ 'z' then Char.ofNat (c.toNat - 32) else c

/-- Python `str.upper()` (ASCII fragment). -/
def pyUpper (cs : List Char) : List Char :=
  cs.map pyUpperChar

/-- The last `n` characters. -/
def takeLast (cs : List Char) (n : ℕ) : List Char :=
  cs.drop (cs.length - n)

/-- All but the last `n` characters (Python slice `s[:-n]`). -/
def dropLast' (cs : List Char) (n : ℕ) : List Char :=
  cs.take (cs.length - n)

/-- Python `s.endswith(sfx)` on character lists. -/
def endsWithCL (cs sfx : List Char) : Bool :=
  takeLast cs sfx.length = sfx

/-- Python `s.rstrip(chars)`: remove trailing characters drawn from a set. -/
def rstripSet (cs : List Char) (set : List Char) : List Char :=
  ((stripAux ((cs.reverse))).reverse)
where
  stripAux : List Char → List Char
    | [] => []
    | c :: rest => if c ∈ set then stripAux rest else c :: rest

/-! ### Python number parsing

`pyFloatChars` models `float(s)` on a string: optional whitespace, optional
sign, digits with an optional decimal point and an optional exponent.
(`inf`/`nan`/underscore separators are not modelled; no input in this
repository or its tests uses them.)  `pyIntChars` models `int(s)`.
-/

/-- Numeric value of a decimal digit character. -/
def digitVal (c : Char) : ℕ := c.toNat - 48

/-- Accumulate a digit string into a natural number (most significant first). -/
def readDigits : List Char → ℕ → ℕ
  | [], acc => acc
  | c :: cs, acc => readDigits cs (acc * 10 + digitVal c)

/-- Split the longest leading run of digits. -/
def spanDigits : List Char → List Char × List Char
  | [] => ([], [])
  | c :: cs =>
      if c.isDigit then
        let (ds, rest) := spanDigits cs
        (c :: ds, rest)
      else ([], c :: cs)

/-- Parse an optional exponent part (`e`/`E`, optional sign, digits);
returns the signed exponent, or `none` when malformed, with `some 0` for
an absent exponent. -/
def parseExp : List Char → Option ℤ
  | [] => some 0
  | c :: cs =>
      if c == 'e' || c == 'E' then
        match cs with
        | '+' :: ds =>
            let (digs, rest) := spanDigits ds
            if digs ≠ [] ∧ rest = [] then some (readDigits digs 0) else none
        | '-' :: ds =>
            let (digs, rest) := spanDigits ds
            if digs ≠ [] ∧ rest = [] then some (-(readDigits digs 0 : ℤ)) else none
        | ds =>
            let (digs, rest) := spanDigits ds
            if digs ≠ [] ∧ rest = [] then some (readDigits digs 0) else none
      else none

/-- `10 ^ n` as a rational, by plain recursion (kernel-friendly). -/
def pow10 : ℕ → ℚ
  | 0 => 1
  | n + 1 => 10 * pow10 n

/-- Scale a rational by a signed power of ten. -/
def scalePow10 (q : ℚ) (e : ℤ) : ℚ :=
  match e with
  | .ofNat n => q * pow10 n
  | .negSucc n => q / pow10 (n + 1)

/-- The unsigned mantissa part of `float(s)`: digits, optional point,
optional exponent.  Requires at least one digit overall. -/
def pyFloatMantissa (cs : List Char) : Option ℚ :=
  let (ipart, rest) := spanDigits cs
  match rest with
  | '.' :: tl =>
      let (fpart, rest2) := spanDigits tl
      if ipart = [] ∧ fpart = [] then none
      else
        match parseExp rest2 with
        | some e =>
            some (scalePow10 ((readDigits ipart 0 : ℚ) +
              (readDigits fpart 0 : ℚ) / pow10 fpart.length) e)
        | none => none
  | _ =>
      if ipart = [] then none
      else
        match parseExp rest with
        | some e => some (scalePow10 (readDigits ipart 0 : ℚ) e)
        | none => none

/-- `float(s)` on a character list. -/
def pyFloatChars (cs : List Char) : Option ℚ :=
  match pyStrip cs with
  | '+' :: tl => pyFloatMantissa tl
  | '-' :: tl => (pyFloatMantissa tl).map (fun q => -q)
  | tl => pyFloatMantissa tl

/-- `float(s)` on a string. -/
def pyFloat (s : String) : Option ℚ :=
  pyFloatChars s.data

/-- `int(s)` on a character list: optional whitespace, optional sign,
digits only. -/
def pyIntChars (cs : List Char) : Option ℤ :=
  match pyStrip cs with
  | '+' :: tl =>
      let (ds, rest) := spanDigits tl
      if ds ≠ [] ∧ rest = [] then some (readDigits ds 0) else none
  | '-' :: tl =>
      let (ds, rest) := spanDigits tl
      if ds ≠ [] ∧ rest = [] then some (-(readDigits ds 0 : ℤ)) else none
  | tl =>
      let (ds, rest) := spanDigits tl
      if ds ≠ [] ∧ rest = [] then some (readDigits ds 0) else none

/-- `int(s)` on a string. -/
def pyInt (s : String) : Option ℤ :=
  pyIntChars s.data

/-- Python `int(x)` on a float value: truncation toward zero. -/
def pyTrunc (q : ℚ) : ℤ :=
  q.num.tdiv (q.den : ℤ)

/-! ### `backend/utils.py` -/

/-- `utils.parse_cpu_to_cores` (utils.py lines 4-13).  `None` yields `0.0`;
numbers (including booleans, which Python treats as ints) pass through
`float()`; strings are stripped, a trailing `m` divides by 1000, anything
else goes through `float(s)`, which raises on unparseable input.  Container
arguments would raise `TypeError` under `float()` and are modelled as
errors. -/
def parse_cpu_to_cores : Val → Except String ℚ
  | .null => .ok 0
  | .num q => .ok q
  | .bool b => .ok (if b then 1 else 0)
  | .str s =>
      let cpu := pyStrip s.data
      if endsWithCL cpu ['m'] then
        match pyFloatChars (dropLast' cpu 1) with
        | some q => .ok (q / 1000)
        | none => .error "ValueError"
      else
        match pyFloatChars cpu with
        | some q => .ok q
        | none => .error "ValueError"
  | _ => .error "TypeError"

/-- `utils.parse_mem_to_gb` (utils.py lines 15-32).  `None` yields `0.0`;
numbers divide by `1024³` (bytes → GB); strings are stripped and upper-cased,
then matched against the suffixes `GI`, `G`, `MI`, `M`, `K` in that order,
with the bare-number fallback dividing by `1024³`.  `float()` raises on
unparseable remainders. -/
def parse_mem_to_gb : Val → Except String ℚ
  | .null => .ok 0
  | .num q => .ok (q / (1024 * 1024 * 1024))
  | .bool b => .ok ((if b then 1 else 0) / (1024 * 1024 * 1024))
  | .str s0 =>
      let s := pyUpper (pyStrip s0.data)
      if endsWithCL s ['G', 'I'] then
        match pyFloatChars (dropLast' s 2) with
        | some q => .ok q
        | none => .error "ValueError"
      else if endsWithCL s ['G'] then
        match pyFloatChars (dropLast' s 1) with
        | some q => .ok q
        | none => .error "ValueError"
      else if endsWithCL s ['M', 'I'] then
        match pyFloatChars (dropLast' s 2) with
        | some q => .ok (q / 1024)
        | none => .error "ValueError"
      else if endsWithCL s ['M'] then
        match pyFloatChars (dropLast' s 1) with
        | some q => .ok (q / 1024)
        | none => .error "ValueError"
      else if endsWithCL s ['K'] then
        match pyFloatChars (dropLast' s 1) with
        | some q => .ok (q / (1024 * 1024))
        | none => .error "ValueError"
      else
        match pyFloatChars s with
        | some q => .ok (q / (1024 * 1024 * 1024))
        | none => .error "ValueError"
  | _ => .error "TypeError"

/-- Python `float(x)` applied to an arbitrary value (ai_advisor.py lines
44-45): numbers and booleans convert, strings are parsed, everything else
raises. -/
def pyFloatOf : Val → Except String ℚ
  | .num q => .ok q
  | .bool b => .ok (if b then 1 else 0)
  | .str s =>
      match pyFloat s with
      | some q => .ok q
      | none => .error "ValueError"
  | _ => .error "TypeError"

/-! ### `backend/ai_advisor.py`: rightsizing estimator -/

/-- 25% buffer on top of observed peak usage (ai_advisor.py line 25). -/
def DEFAULT_BUFFER : ℚ := 5 / 4

/-- Cost per CPU core-hour (ai_advisor.py line 26). -/
def COST_PER_CPU_HOUR : ℚ := 1 / 50

/-- Cost per GB-hour (ai_advisor.py line 27). -/
def COST_PER_GB_HOUR : ℚ := 1 / 200

/-- Hours per month, `24 * 30` (ai_advisor.py line 28). -/
def HOURS_PER_MONTH : ℚ := 24 * 30

/-- Only recommend a reduction if the suggestion is below 85% of the current
request (ai_advisor.py line 29). -/
def REDUCTION_THRESHOLD : ℚ := 17 / 20

/-- The result dict of `compute_rightsizing`. -/
structure RightsizingResult where
  suggested_cpu : ℚ
  suggested_mem_gb : ℚ
  monthly_saving_usd : ℚ
deriving Repr, DecidableEq

/-- `ai_advisor.compute_rightsizing` (ai_advisor.py lines 31-67): parse the
current requests and usage, buffer the usage by 25% with a floor of `0.001`,
count a reduction only when the suggestion is below 85% of the request, and
price the reductions at the fixed hourly rates over a month.  Raises exactly
when one of the four field parses raises. -/
def compute_rightsizing (workload_data : Obj) : Except String RightsizingResult := do
  let cpu_req ← parse_cpu_to_cores (pyGetD workload_data "cpu_requested" (.str "0"))
  let mem_req ← parse_mem_to_gb (pyGetD workload_data "memory_requested" (.str "0"))
  let cpu_used ← pyFloatOf (pyGetD workload_data "cpu_used" (.num 0))
  let mem_used ← pyFloatOf (pyGetD workload_data "memory_used" (.num 0))
  let suggested_cpu := max (1 / 1000) (cpu_used * DEFAULT_BUFFER)
  let suggested_mem := max (1 / 1000) (mem_used * DEFAULT_BUFFER)
  let cpu_reduction : ℚ :=
    if suggested_cpu < cpu_req * REDUCTION_THRESHOLD then cpu_req - suggested_cpu else 0
  let mem_reduction : ℚ :=
    if suggested_mem < mem_req * REDUCTION_THRESHOLD then mem_req - suggested_mem else 0
  let monthly_saving :=
    (cpu_reduction * COST_PER_CPU_HOUR + mem_reduction * COST_PER_GB_HOUR) * HOURS_PER_MONTH
  return { suggested_cpu := suggested_cpu
           suggested_mem_gb := suggested_mem
           monthly_saving_usd := monthly_saving }

/-! ### JSON decoding (`json.loads` as used in `generate_recommendation`) -/

/-- Skip JSON whitespace. -/
def jsonWs : List Char → List Char
  | [] => []
  | c :: cs => if c == ' ' || c == '\t' || c == '\n' || c == '\r' then jsonWs cs else c :: cs

/-- Parse a JSON string body after the opening quote; returns the content and
the rest after the closing quote.  The common escapes are handled; `\u`
escapes decode their code point. -/
def jsonString (fuel : ℕ) (cs : List Char) (acc : List Char) : Option (String × List Char) :=
  match fuel, cs with
  | 0, _ => none
  | _, [] => none
  | fuel + 1, c :: rest =>
      if c == '"' then some (String.mk acc.reverse, rest)
      else if c == '\\' then
        match rest with
        | [] => none
        | e :: rest2 =>
            if e == 'n' then jsonString fuel rest2 ('\n' :: acc)
            else if e == 't' then jsonString fuel rest2 ('\t' :: acc)
            else if e == 'r' then jsonString fuel rest2 ('\r' :: acc)
            else if e == 'b' then jsonString fuel rest2 ('\x08' :: acc)
            else if e == 'f' then jsonString fuel rest2 ('\x0c' :: acc)
            else if e == '"' || e == '\\' || e == '/' then jsonString fuel rest2 (e :: acc)
            else if e == 'u' then
              match rest2 with
              | h1 :: h2 :: h3 :: h4 :: rest3 =>
                  let hv := fun (h : Char) =>
                    if h.isDigit then some (h.toNat - 48)
                    else if 'a' ≤ h ∧ h ≤ 'f' then some (h.toNat - 87)
                    else if 'A' ≤ h ∧ h ≤ 'F' then some (h.toNat - 55)
                    else none
                  match hv h1, hv h2, hv h3, hv h4 with
                  | some a, some b, some c3, some d =>
                      jsonString fuel rest3 (Char.ofNat (((a * 16 + b) * 16 + c3) * 16 + d) :: acc)
                  | _, _, _, _ => none
              | _ => none
            else none
      else jsonString fuel rest (c :: acc)

/-- Parse a JSON number starting at `cs`. -/
def jsonNumber (cs : List Char) : Option (ℚ × List Char) :=
  let (sign, cs1) : ℚ × List Char :=
    match cs with
    | '-' :: tl => (-1, tl)
    | _ => (1, cs)
  let (ipart, rest) := spanDigits cs1
  if ipart = [] then none
  else
    let iv : ℚ := readDigits ipart 0
    let (fv, rest2) : ℚ × List Char :=
      match rest with
      | '.' :: tl =>
          let (fpart, r) := spanDigits tl
          ((readDigits fpart 0 : ℚ) / pow10 fpart.length, r)
      | _ => (0, rest)
    match rest2 with
    | e :: tl =>
        if e == 'e' || e == 'E' then
          let (esign, tl2) : ℤ × List Char :=
            match tl with
            | '+' :: t => (1, t)
            | '-' :: t => (-1, t)
            | _ => (1, tl)
          let (epart, rest3) := spanDigits tl2
          if epart = [] then none
          else some (scalePow10 (sign * (iv + fv)) (esign * (readDigits epart 0 : ℤ)), rest3)
        else some (sign * (iv + fv), rest2)
    | [] => some (sign * (iv + fv), [])

/-- One step of the recursive-descent JSON value parser, fuelled. -/
def jsonValue (fuel : ℕ) (cs : List Char) : Option (Val × List Char) :=
  match fuel with
  | 0 => none
  | fuel + 1 =>
      match jsonWs cs with
      | [] => none
      | c :: rest =>
          if c == '"' then (jsonString (fuel + 1) rest []).map (fun (s, r) => (Val.str s, r))
          else if c == '\x7b' then jsonMembers fuel (jsonWs rest) [] true
          else if c == '[' then jsonElems fuel (jsonWs rest) [] true
          else if c == 't' then
            match rest with
            | 'r' :: 'u' :: 'e' :: r => some (.bool true, r)
            | _ => none
          else if c == 'f' then
            match rest with
            | 'a' :: 'l' :: 's' :: 'e' :: r => some (.bool false, r)
            | _ => none
          else if c == 'n' then
            match rest with
            | 'u' :: 'l' :: 'l' :: r => some (.null, r)
            | _ => none
          else (jsonNumber (c :: rest)).map (fun (q, r) => (Val.num q, r))
where
  /-- Object members after `\x7b`, expecting a first member or `\x7d` when
  `first` is set. -/
  jsonMembers (fuel : ℕ) (cs : List Char) (acc : Obj) (first : Bool) :
      Option (Val × List Char) :=
    match fuel with
    | 0 => none
    | fuel + 1 =>
        match jsonWs cs with
        | [] => none
        | c :: rest =>
            if c == '\x7d' ∧ first then some (.obj acc.reverse, rest)
            else
              match jsonWs (c :: rest) with
              | '"' :: tl =>
                  match jsonString (fuel + 1) tl [] with
                  | none => none
                  | some (k, r1) =>
                      match jsonWs r1 with
                      | ':' :: r2 =>
                          match jsonValue fuel r2 with
                          | none => none
                          | some (v, r3) =>
                              match jsonWs r3 with
                              | ',' :: r4 => jsonMembers fuel r4 ((k, v) :: acc) false
                              | '\x7d' :: r4 => some (.obj ((k, v) :: acc).reverse, r4)
                              | _ => none
                      | _ => none
              | _ => none
  /-- Array elements after `[`. -/
  jsonElems (fuel : ℕ) (cs : List Char) (acc : List Val) (first : Bool) :
      Option (Val × List Char) :=
    match fuel with
    | 0 => none
    | fuel + 1 =>
        match jsonWs cs with
        | [] => none
        | c :: rest =>
            if c == ']' ∧ first then some (.list acc.reverse, rest)
            else
              match jsonValue fuel (c :: rest) with
              | none => none
              | some (v, r1) =>
                  match jsonWs r1 with
                  | ',' :: r2 => jsonElems fuel r2 (v :: acc) false
                  | ']' :: r2 => some (.list (v :: acc).reverse, r2)
                  | _ => none

/-- `json.loads(s)`: parse one JSON value and require only whitespace after
it.  Fuel is the string length plus one, which bounds the recursion depth. -/
def json_loads (s : String) : Except String Val :=
  match jsonValue (s.length + 1) s.data with
  | some (v, rest) =>
      if jsonWs rest = [] then .ok v else .error "JSONDecodeError"
  | none => .error "JSONDecodeError"

/-! ### `backend/ai_advisor.py`: advisory call and orchestrator -/

/-- The observable behaviour of `get_ai_provider().ask(...)` for one call:
either it raises (transport failure, exhausted retries, missing credentials)
or it returns a decoded response dict.  The advisory backend is an external
service; `generate_recommendation` is parameterised by this outcome. -/
inductive AIOutcome where
  | raises (msg : String)
  | returns (resp : Obj)

/-- `ai_advisor.call_ai_model` (ai_advisor.py lines 69-100): forwards the
provider's response, and converts any exception into the structured fallback
dict with keys `status`, `error`, `fallback_used`.  Never raises. -/
def call_ai_model : AIOutcome → Obj
  | .raises msg =>
      [("status", .str "fallback"), ("error", .str msg), ("fallback_used", .bool true)]
  | .returns resp => resp

/-- Whether the prompt f-string of `generate_recommendation` (ai_advisor.py
lines 246-273) builds without raising: it reads eleven keys of
`workload_data` (raising `KeyError` on a missing one) and applies `:.1f` /
`:.2f` format specs to four of them (raising unless the value is numeric;
Python treats booleans as numbers).  The prompt text itself flows only into
the abstract advisory backend, so only its success or failure is modelled. -/
def promptOk (wd : Obj) : Bool :=
  hasKey wd "name" && hasKey wd "kind" && hasKey wd "namespace" &&
  hasKey wd "cpu_requested" && hasKey wd "cpu_used" &&
  (match pyGet wd "cpu_utilization" with
   | some (.num _) => true | some (.bool _) => true | _ => false) &&
  hasKey wd "memory_requested" && hasKey wd "memory_used" &&
  (match pyGet wd "memory_utilization" with
   | some (.num _) => true | some (.bool _) => true | _ => false) &&
  (match pyGet wd "current_cost" with
   | some (.num _) => true | some (.bool _) => true | _ => false) &&
  (match pyGet wd "current_carbon" with
   | some (.num _) => true | some (.bool _) => true | _ => false)

/-- The six-field recommendation dict built on the fallback paths of
`generate_recommendation`, with its numeric fields taken from a
`compute_rightsizing` result. -/
def fallbackRec (expl : String) (risk next : String) (r : RightsizingResult) : Obj :=
  [("explanation", .str expl),
   ("recommended_cpu", .num r.suggested_cpu),
   ("recommended_memory", .num r.suggested_mem_gb),
   ("estimated_savings", .num r.monthly_saving_usd),
   ("risk_level", .str risk),
   ("next_step", .str next)]

/-- A value is a well-formed recommendation when it is a dict carrying the
five contract fields plus `next_step`. -/
def wellFormedRec (v : Val) : Bool :=
  match v with
  | .obj o =>
      hasKey o "explanation" && hasKey o "recommended_cpu" &&
      hasKey o "recommended_memory" && hasKey o "estimated_savings" &&
      hasKey o "risk_level" && hasKey o "next_step"
  | _ => false

/-- The explanation used on the `fallback_used` path (ai_advisor.py line 291,
also lines 304, 321 up to the interpolated error text). -/
def fbExplanation : String :=
  "AI analysis unavailable. Rightsizing recommendation based on actual usage patterns."

/-- The `next_step` text used on the backend-failure fallback paths. -/
def fbNextStep : String := "Manually review resource usage patterns"

/-- The body of the `try:` block of `generate_recommendation` (ai_advisor.py
lines 275-327): call the model, branch on `fallback_used`, then on
`status == "fallback"`, then on the presence of `response` (whose string
payload goes through `json.loads` and is returned verbatim), and otherwise
fall back.  An error is anything the block would raise. -/
def genRecTryBody (wd : Obj) (ai : AIOutcome) : Except String Val :=
  let rd := call_ai_model ai
  if truthy (pyGetD rd "fallback_used" .null) then
    (compute_rightsizing wd).map
      (fun r => .obj (fallbackRec fbExplanation "medium" fbNextStep r))
  else if pyEqStr (pyGetD rd "status" .null) "fallback" then
    (compute_rightsizing wd).map
      (fun r => .obj (fallbackRec
        ("AI analysis unavailable: " ++ pyStr (pyGetD rd "error" (.str "Unknown error")) ++
          ". Rightsizing recommendation based on actual usage patterns.")
        "medium" fbNextStep r))
  else if hasKey rd "response" then
    match pyGetD rd "response" .null with
    | .str s => json_loads s
    | _ => .error "TypeError"
  else
    (compute_rightsizing wd).map
      (fun r => .obj (fallbackRec fbExplanation "medium" fbNextStep r))

/-- `ai_advisor.generate_recommendation` (ai_advisor.py lines 241-340).  The
prompt f-string sits before the `try:` block, so its failures propagate; the
`except` handler builds a high-risk fallback recommendation, and itself calls
`compute_rightsizing`, whose failures also propagate. -/
def generate_recommendation (wd : Obj) (ai : AIOutcome) : Except String Val :=
  if promptOk wd = false then .error "KeyError"
  else
    match genRecTryBody wd ai with
    | .ok v => .ok v
    | .error e =>
        (compute_rightsizing wd).map
          (fun r => .obj (fallbackRec
            ("Error: " ++ e ++ ". Rightsizing recommendation based on actual usage patterns.")
            "high" "Fix AI integration" r))

/-! ### `backend/main.py`: rightsizing detection rule -/

/-- The rightsizing opportunity assembled inline in
`main.analyze_opportunities`. -/
structure DetectedRightsizing where
  recommended_cpu : ℚ
  recommended_memory : ℚ
  risk_level : String
  confidence : ℚ
deriving Repr, DecidableEq

/-- The rightsizing detection rule of `main.analyze_opportunities`
(main.py lines 499-527), as a function of the four averaged metrics: compute
utilizations (zero when the request average is not positive), fire when
either utilization is under 20%, recommend `used * 2 * 1.2`, and band
risk/confidence at the 10% and 15% utilization marks. -/
def analyze_opportunities_rightsizing (avg_cpu_requested avg_cpu_used
    avg_memory_requested avg_memory_used : ℚ) : Option DetectedRightsizing :=
  let cpu_utilization : ℚ :=
    if 0 < avg_cpu_requested then avg_cpu_used / avg_cpu_requested * 100 else 0
  let memory_utilization : ℚ :=
    if 0 < avg_memory_requested then avg_memory_used / avg_memory_requested * 100 else 0
  if cpu_utilization < 20 ∨ memory_utilization < 20 then
    let recommended_cpu := avg_cpu_used * 2 * (6 / 5)
    let recommended_memory := avg_memory_used * 2 * (6 / 5)
    if cpu_utilization < 10 ∨ memory_utilization < 10 then
      some ⟨recommended_cpu, recommended_memory, "low", 9 / 10⟩
    else if cpu_utilization < 15 ∨ memory_utilization < 15 then
      some ⟨recommended_cpu, recommended_memory, "medium", 3 / 4⟩
    else
      some ⟨recommended_cpu, recommended_memory, "medium", 3 / 5⟩
  else none

/-! ### `backend/registry.py`: image footprint rule -/

/-- Image size threshold in MB (registry.py line 13). -/
def DEFAULT_IMAGE_SIZE_THRESHOLD_MB : ℤ := 200

/-- The size computation of `registry.fetch_docker_hub_size` given a manifest
whose layer sizes sum to `total_size` bytes (registry.py lines 226-235):
`int(total_size / (1024 * 1024))`, i.e. truncation to integer MB.  The
network and authentication plumbing around it is abstract. -/
def docker_hub_size_mb (total_size : ℕ) : ℤ :=
  (total_size / (1024 * 1024) : ℕ)

/-- Round half to even (Python `round`). -/
def pyRoundEven (q : ℚ) : ℤ :=
  let f := ⌊q⌋
  let r := q - f
  if r < 1 / 2 then f
  else if 1 / 2 < r then f + 1
  else if f % 2 = 0 then f else f + 1

/-- Python `round(x, 2)`: round to two decimal places, ties to even. -/
def pyRound2 (q : ℚ) : ℚ :=
  (pyRoundEven (q * 100) : ℚ) / 100

/-- The opportunity dict built for one oversized image (registry.py lines
307-327). -/
def imageOpportunity (image_ref : String) (image_size_mb : ℤ) : Obj :=
  [("type", .str "image-optimization"),
   ("description", .str ("Container image \x27" ++ image_ref ++ "\x27 is " ++
      toString image_size_mb ++ "MB, consider optimizing")),
   ("estimated_savings_usd",
     .num (pyRound2 ((image_size_mb - DEFAULT_IMAGE_SIZE_THRESHOLD_MB : ℤ) * (1 / 10000 : ℚ) * 30))),
   ("estimated_carbon_gco2e",
     .num (pyRound2 ((image_size_mb - DEFAULT_IMAGE_SIZE_THRESHOLD_MB : ℤ) * (1 / 50 : ℚ)))),
   ("confidence_score", .num (4 / 5)),
   ("risk_level", .str "low"),
   ("details", .obj
     [("current_size_mb", .num image_size_mb),
      ("threshold_mb", .num DEFAULT_IMAGE_SIZE_THRESHOLD_MB),
      ("image_ref", .str image_ref)])]

/-- The loop body of `analyze_image_optimization_opportunities` over the
container list (registry.py lines 298-328), parameterised by the abstract
size resolver (`get_container_image_size`).  A container without an `image`
key is skipped; a resolver miss (`None`) or a size at or under the threshold
yields nothing; a malformed (non-dict) container raises, which the `except`
turns into "stop, keep what was accumulated". -/
def imageOpps (resolve : String → Option ℤ) : List Val → List Obj
  | [] => []
  | c :: rest =>
      match c with
      | .obj co =>
          if hasKey co "image" then
            match pyGetD co "image" .null with
            | .str image_ref =>
                match resolve image_ref with
                | some sz =>
                    if sz ≠ 0 ∧ DEFAULT_IMAGE_SIZE_THRESHOLD_MB < sz then
                      imageOpportunity image_ref sz :: imageOpps resolve rest
                    else imageOpps resolve rest
                | none => imageOpps resolve rest
            | _ => []
          else imageOpps resolve rest
      | _ => []

/-- `registry.analyze_image_optimization_opportunities` (registry.py lines
276-336): extract the container list (pod-template-wrapped spec when
`spec.template` exists, else a bare pod spec when `spec.containers` exists),
scan it with `imageOpps`, and return the opportunity list together with the
count of analyzed containers.  Any exception inside the `try:` (membership
tests on non-dict values, iteration over non-lists, non-dict containers) is
caught and the accumulated result returned; those raising shapes are
modelled as yielding the containers accumulated so far. -/
def analyze_image_optimization_opportunities (resolve : String → Option ℤ)
    (workload_data : Obj) : List Obj × ℕ :=
  let containers : List Val :=
    match pyGet workload_data "spec" with
    | some (.obj sObj) =>
        if hasKey sObj "template" then
          (match pyGet sObj "template" with
           | some (.obj tObj) =>
               (if hasKey tObj "spec" then
                  (match pyGet tObj "spec" with
                   | some (.obj tsObj) =>
                       (if hasKey tsObj "containers" then
                          (match pyGet tsObj "containers" with
                           | some (.list cs) => cs
                           | _ => [])
                        else [])
                   | _ => [])
                else [])
           | _ => [])
        else if hasKey sObj "containers" then
          (match pyGet sObj "containers" with
           | some (.list cs) => cs
           | _ => [])
        else []
    | _ => []
  (imageOpps resolve containers, containers.length)

/-! ### `backend/security.py` -/

/-- The common shape of every security recommendation dict
(security.py lines 26-163): fixed `type`, zero cost and carbon estimates,
and a single-remediation `details` dict. -/
def secRec (desc : String) (conf : ℚ) (risk : String) (remediation : String) : Obj :=
  [("type", .str "security"),
   ("description", .str desc),
   ("estimated_savings_usd", .num 0),
   ("estimated_carbon_gco2e", .num 0),
   ("confidence_score", .num conf),
   ("risk_level", .str risk),
   ("details", .obj [("recommendation", .str remediation)])]

/-- security.py lines 26-36: workload missing `securityContext`. -/
def wlMissingSecCtxRec : Obj :=
  secRec "Workload missing securityContext. Consider adding security constraints."
    (9 / 10) "medium"
    "Add securityContext with runAsNonRoot, readOnlyRootFilesystem, and allowPrivilegeEscalation=false"

/-- security.py lines 42-52: `runAsNonRoot` not enforced. -/
def runAsNonRootRec : Obj :=
  secRec "Workload should run as non-root user for security." (4 / 5) "medium"
    "Set securityContext.runAsNonRoot=true"

/-- security.py lines 56-66: `readOnlyRootFilesystem` not enforced. -/
def readOnlyRootRec : Obj :=
  secRec "Workload should use read-only root filesystem for security." (7 / 10) "low"
    "Set securityContext.readOnlyRootFilesystem=true"

/-- security.py lines 75-85: container missing `securityContext`. -/
def containerMissingSecCtxRec (cname : String) : Obj :=
  secRec ("Container \x27" ++ cname ++ "\x27 missing securityContext.") (9 / 10) "medium"
    ("Add securityContext to container \x27" ++ cname ++
      "\x27 with capabilities drop and readOnlyRootFilesystem")

/-- security.py lines 91-101: missing capability drops. -/
def capabilitiesRec (cname : String) : Obj :=
  secRec ("Container \x27" ++ cname ++ "\x27 should drop unnecessary capabilities.")
    (4 / 5) "low"
    ("Set securityContext.capabilities.drop=[\x27ALL\x27] for container \x27" ++ cname ++ "\x27")

/-- security.py lines 105-115: privileged mode — the only 0.95-confidence,
high-risk finding. -/
def privilegedRec (cname : String) : Obj :=
  secRec ("Container \x27" ++ cname ++ "\x27 running in privileged mode. This is a security risk.")
    (19 / 20) "high"
    ("Remove privileged=true from container \x27" ++ cname ++ "\x27")

/-- security.py lines 122-146: missing resource limits (used both when the
`resources` key and when only its `limits` key is absent). -/
def resourceLimitsRec (cname : String) : Obj :=
  secRec ("Container \x27" ++ cname ++ "\x27 missing resource limits. This can lead to DoS attacks.")
    (4 / 5) "medium"
    ("Add resources.limits to container \x27" ++ cname ++ "\x27")

/-- security.py lines 153-163: hostPath volume. -/
def hostPathRec (vname : String) : Obj :=
  secRec ("Volume \x27" ++ vname ++ "\x27 uses hostPath which can be a security risk.")
    (9 / 10) "high"
    "Avoid hostPath volumes or use subPath with restricted permissions"

/-- `container.get("name", f"container-\x7bi\x7d")` interpolated into the
description f-strings (str() applied to non-string names). -/
def cnameOf (co : Obj) (i : ℕ) : String :=
  match pyGet co "name" with
  | some v => pyStr v
  | none => "container-" ++ toString i

/-- security.py lines 20-22: extract the template spec.  `spec` defaults to
an empty dict; a truthy `template` selects its (dict) `spec`, a falsy one
falls back to the workload `spec` itself.  `none` marks the shapes on which
the code raises (attribute/membership errors on non-dict values), which the
outer `except` turns into an empty recommendation list. -/
def secTemplateSpec (wd : Obj) : Option Obj :=
  match pyGetD wd "spec" (.obj []) with
  | .obj sO =>
      let template := pyGetD sO "template" (.obj [])
      if truthy template then
        match template with
        | .obj tO =>
            (match pyGetD tO "spec" (.obj []) with
             | .obj tsO => some tsO
             | _ => none)
        | _ => none
      else some sO
  | _ => none

/-- security.py lines 25-66: pod-level checks.  The boolean marks an
exception mid-way (non-dict `securityContext`), after which the accumulated
recommendations are returned. -/
def podSecRecs (ts : Obj) : List Obj × Bool :=
  if hasKey ts "securityContext" = false then
    ([wlMissingSecCtxRec], false)
  else
    match pyGetD ts "securityContext" .null with
    | .obj sc =>
        let r1 :=
          if (match pyGet sc "runAsNonRoot" with
              | some (.bool true) => false
              | _ => true) then [runAsNonRootRec] else []
        let r2 :=
          if (match pyGet sc "readOnlyRootFilesystem" with
              | some (.bool true) => false
              | _ => true) then [readOnlyRootRec] else []
        (r1 ++ r2, false)
    | _ => ([], true)

/-- security.py lines 68-115: the first container loop (securityContext,
capability drops, privileged mode).  `privileged` fires only on the boolean
`True` (`is True`).  The boolean marks an exception at the current element;
recommendations from earlier containers are kept by the callers. -/
def containerSecRecs : List Val → ℕ → List Obj × Bool
  | [], _ => ([], false)
  | c :: rest, i =>
      match c with
      | .obj co =>
          if hasKey co "securityContext" = false then
            (containerMissingSecCtxRec (cnameOf co i) :: (containerSecRecs rest (i + 1)).1,
             (containerSecRecs rest (i + 1)).2)
          else
            (match pyGetD co "securityContext" .null with
             | .obj cs =>
                 ((if hasKey cs "capabilities" = false
                     then [capabilitiesRec (cnameOf co i)] else []) ++
                  (if (match pyGet cs "privileged" with
                       | some (.bool true) => true
                       | _ => false) then [privilegedRec (cnameOf co i)] else []) ++
                  (containerSecRecs rest (i + 1)).1,
                  (containerSecRecs rest (i + 1)).2)
             | _ => ([], true))
      | _ => ([], true)

/-- security.py lines 117-146: the second container loop (resource limits). -/
def resourceSecRecs : List Val → ℕ → List Obj × Bool
  | [], _ => ([], false)
  | c :: rest, i =>
      match c with
      | .obj co =>
          if hasKey co "resources" = false then
            (resourceLimitsRec (cnameOf co i) :: (resourceSecRecs rest (i + 1)).1,
             (resourceSecRecs rest (i + 1)).2)
          else
            (match pyGetD co "resources" .null with
             | .obj resO =>
                 if hasKey resO "limits" = false then
                   (resourceLimitsRec (cnameOf co i) :: (resourceSecRecs rest (i + 1)).1,
                    (resourceSecRecs rest (i + 1)).2)
                 else resourceSecRecs rest (i + 1)
             | _ => ([], true))
      | _ => ([], true)

/-- security.py lines 148-163: the hostPath volume loop. -/
def volumeSecRecs : List Val → List Obj × Bool
  | [] => ([], false)
  | v :: rest =>
      match v with
      | .obj vo =>
          if hasKey vo "hostPath" then
            (hostPathRec (match pyGet vo "name" with
              | some x => pyStr x
              | none => "unknown") :: (volumeSecRecs rest).1,
             (volumeSecRecs rest).2)
          else volumeSecRecs rest
      | _ => ([], true)

/-- `security.analyze_security` (security.py lines 6-168): run the pod-level
checks, both container loops and the volume loop in order; any exception
stops the analysis and the recommendations accumulated so far are returned
(the whole body sits in one `try:`). -/
def analyze_security (workload_data : Obj) : List Obj :=
  match secTemplateSpec workload_data with
  | none => []
  | some ts =>
      let pr := podSecRecs ts
      if pr.2 then pr.1
      else
        match pyGetD ts "containers" (.list []) with
        | .list cs =>
            let cr := containerSecRecs cs 0
            if cr.2 then pr.1 ++ cr.1
            else
              let rr := resourceSecRecs cs 0
              if rr.2 then pr.1 ++ cr.1 ++ rr.1
              else
                (match pyGetD ts "volumes" (.list []) with
                 | .list vs => pr.1 ++ cr.1 ++ rr.1 ++ (volumeSecRecs vs).1
                 | _ => pr.1 ++ cr.1 ++ rr.1)
        | _ => pr.1

/-- A container value whose (dict) `securityContext` declares
`privileged: true`. -/
def isPrivilegedC (c : Val) : Bool :=
  match c with
  | .obj co =>
      (match pyGet co "securityContext" with
       | some (.obj cs) =>
           (match pyGet cs "privileged" with
            | some (.bool true) => true
            | _ => false)
       | _ => false)
  | _ => false

/-- A recommendation dict carrying confidence 0.95 (the privileged-mode
classification). -/
def isConf095 (r : Obj) : Bool :=
  match pyGet r "confidence_score" with
  | some (.num q) => q == 19 / 20
  | _ => false

/-- A recommendation dict classified `risk_level: high`. -/
def isHighRisk (r : Obj) : Bool :=
  match pyGet r "risk_level" with
  | some (.str s) => s == "high"
  | _ => false

/-! ### `backend/ai_advisor.py`: patch generation -/

/-- `d[k]` on a Python dict (raises `KeyError` when absent). -/
def getItem (o : Obj) (k : String) : Except String Val :=
  match pyGet o k with
  | some v => .ok v
  | none => .error "KeyError"

/-- `d[k]` coerced by numeric multiplication: numbers and booleans work,
anything else raises. -/
def getNumItem (o : Obj) (k : String) : Except String ℚ :=
  match pyGet o k with
  | some (.num q) => .ok q
  | some (.bool b) => .ok (if b then 1 else 0)
  | some _ => .error "TypeError"
  | none => .error "KeyError"

/-- The four integers rendered by `generate_yaml_patch_for_workload`
(ai_advisor.py lines 113-117): requests truncate `rc * 1000` / `rm * 1024`
with Python `int()`, and limits truncate `1.5 ×` the RAW recommendation,
not the already-truncated request. -/
structure YamlPatchNums where
  request_cpu_millis : ℤ
  request_memory_mib : ℤ
  limit_cpu_millis : ℤ
  limit_memory_mib : ℤ
deriving Repr, DecidableEq

/-- ai_advisor.py lines 114-117. -/
def yamlPatchNums (rc rm : ℚ) : YamlPatchNums :=
  { request_cpu_millis := pyTrunc (rc * 1000)
    request_memory_mib := pyTrunc (rm * 1024)
    limit_cpu_millis := pyTrunc (rc * (3 / 2) * 1000)
    limit_memory_mib := pyTrunc (rm * (3 / 2) * 1024) }

/-- `ai_advisor.generate_yaml_patch_for_workload` (ai_advisor.py lines
102-139): the template-mode patch, a self-contained manifest skeleton with a
placeholder container name.  The surrounding `f"""..."""` is stripped of its
leading/trailing newline by `.strip()`. -/
def generate_yaml_patch_for_workload (workload_data recommendation : Obj) :
    Except String String := do
  let rc ← getNumItem recommendation "recommended_cpu"
  let rm ← getNumItem recommendation "recommended_memory"
  let kind ← getItem workload_data "kind"
  let name ← getItem workload_data "name"
  let nspace ← getItem workload_data "namespace"
  let n := yamlPatchNums rc rm
  return "apiVersion: apps/v1\nkind: " ++ pyStr kind ++
    "\nmetadata:\n  name: " ++ pyStr name ++
    "\n  namespace: " ++ pyStr nspace ++
    "\nspec:\n  template:\n    spec:\n      containers:\n      - name: main  # Update with actual container name\n        resources:\n          requests:\n            cpu: \"" ++
    toString n.request_cpu_millis ++ "m\"\n            memory: \"" ++
    toString n.request_memory_mib ++ "Mi\"\n          limits:\n            cpu: \"" ++
    toString n.limit_cpu_millis ++ "m\"\n            memory: \"" ++
    toString n.limit_memory_mib ++ "Mi\""

/-- A `(cpu, memory)` pair of quantity strings, one value of the
`suggested_resources` dict. -/
structure ResPair where
  cpu : String
  memory : String
deriving Repr, DecidableEq

/-- The `suggested_resources` argument: a dict keyed by
`(workload_name, container_name)`. -/
abbrev SuggestedResources := List ((String × String) × ResPair)

/-- Dict lookup on a `SuggestedResources`. -/
def lookupSR : SuggestedResources → String × String → Option ResPair
  | [], _ => none
  | (k, v) :: rest, key => if k = key then some v else lookupSR rest key

/-- The merge-mode CPU limit string (ai_advisor.py lines 185, 187):
`1.5 ×` the ALREADY-truncated integer request, truncated again. -/
def mergeLimitCpu (cpu_millis : ℤ) : String :=
  toString (pyTrunc ((cpu_millis : ℚ) * (3 / 2))) ++ "m"

/-- The merge-mode memory limit string (ai_advisor.py lines 186, 188). -/
def mergeLimitMem (memory_mib : ℤ) : String :=
  toString (pyTrunc ((memory_mib : ℚ) * (3 / 2))) ++ "Mi"

/-- The per-container update of `generate_strategic_merge_patch`
(ai_advisor.py lines 168-188).  A container whose `(workload, name)` key is
not in `suggested_resources` is returned untouched; a matched container gets
`resources.requests` / `resources.limits` created or overwritten.  `none`
marks the raising shapes (non-dict container, non-dict
`resources`/`requests`/`limits`, `int()` failing on the quantity strings),
which abort the whole patch. -/
def updateContainer (sugg : SuggestedResources) (wname : Option String) (c : Val) :
    Option Val :=
  match c with
  | .obj co =>
      (match wname, pyGet co "name" with
       | some w, some (.str cn) =>
           (match lookupSR sugg (w, cn) with
            | some res =>
                (match pyGetD co "resources" (.obj []) with
                 | .obj resO =>
                     (match pyGetD resO "requests" (.obj []),
                            pyGetD resO "limits" (.obj []) with
                      | .obj reqO, .obj limO =>
                          (match pyIntChars (rstripSet res.cpu.data ['m']),
                                 pyIntChars (rstripSet res.memory.data ['M', 'i']) with
                           | some cpu_millis, some memory_mib =>
                               let reqO2 := objSet (objSet reqO "cpu" (.str res.cpu))
                                 "memory" (.str res.memory)
                               let limO2 := objSet (objSet limO "cpu"
                                   (.str (mergeLimitCpu cpu_millis)))
                                 "memory" (.str (mergeLimitMem memory_mib))
                               let resO2 := objSet (objSet resO "requests" (.obj reqO2))
                                 "limits" (.obj limO2)
                               some (.obj (objSet co "resources" (.obj resO2)))
                           | _, _ => none)
                      | _, _ => none)
                 | _ => none)
            | none => some c)
       | _, _ => some c)
  | _ => none

/-- `doc.get("metadata", \x7b\x7d).get("name")` (ai_advisor.py line 170):
the workload name used in the match key; `none` inside `.ok` when the name
is absent or not a string (then no string key can match), `.error` when
`metadata` is a non-dict value. -/
def metaName (dObj : Obj) : Except String (Option String) :=
  match pyGetD dObj "metadata" (.obj []) with
  | .obj mO =>
      .ok (match pyGet mO "name" with
           | some (.str s) => some s
           | _ => none)
  | _ => .error "AttributeError"

/-- The container loop of `generate_strategic_merge_patch` (ai_advisor.py
lines 168-188).  The workload name is only evaluated once a container is
reached, so its failure only matters on a non-empty list. -/
def updateContainers (sugg : SuggestedResources) (wn : Except String (Option String)) :
    List Val → Option (List Val)
  | [] => some []
  | c :: rest =>
      match wn with
      | .error _ => none
      | .ok wname =>
          match updateContainer sugg wname c with
          | none => none
          | some c2 => (updateContainers sugg wn rest).map (fun tl => c2 :: tl)

/-- The outcome of `generate_strategic_merge_patch`: either the (re-parsed)
patched document that `yaml.safe_dump` serialises, or the `except` path that
returns the error banner plus the original text unchanged. -/
inductive MergeOut where
  | patched (doc : Val)
  | errorReturn
deriving Repr

/-- `ai_advisor.generate_strategic_merge_patch` (ai_advisor.py lines
141-196), at the level of parsed documents (the YAML text layer on both
sides is `yaml.safe_load` / `yaml.safe_dump`, which preserve this
structure).  `spec.template`, when truthy, selects the pod-template branch;
`template.setdefault("spec", \x7b\x7d).setdefault("containers", [])` can
INSERT those keys into the document.  In the bare-pod branch the mutation of
a defaulted (absent) `spec` is invisible in the output, matching the Python
aliasing.  Raising shapes map to `errorReturn`; a present non-list
`containers` value is modelled as raising (true for every non-empty
non-list, which fails at `c.get`). -/
def generate_strategic_merge_patch (doc : Val) (sugg : SuggestedResources) : MergeOut :=
  match doc with
  | .obj dObj =>
      (match pyGetD dObj "spec" (.obj []) with
       | .obj sObj =>
           (match pyGet sObj "template" with
            | some tv =>
                if truthy tv then
                  (match tv with
                   | .obj tObj =>
                       (match pyGetD tObj "spec" (.obj []) with
                        | .obj tsObj =>
                            (match pyGetD tsObj "containers" (.list []) with
                             | .list cs =>
                                 (match updateContainers sugg (metaName dObj) cs with
                                  | none => .errorReturn
                                  | some cs2 =>
                                      let tsObj2 := objSet tsObj "containers" (.list cs2)
                                      let tObj2 := objSet tObj "spec" (.obj tsObj2)
                                      let sObj2 := objSet sObj "template" (.obj tObj2)
                                      .patched (.obj (objSet dObj "spec" (.obj sObj2))))
                             | _ => .errorReturn)
                        | _ => .errorReturn)
                   | _ => .errorReturn)
                else
                  (match pyGetD sObj "containers" (.list []) with
                   | .list cs =>
                       (match updateContainers sugg (metaName dObj) cs with
                        | none => .errorReturn
                        | some cs2 =>
                            if hasKey dObj "spec" then
                              .patched (.obj (objSet dObj "spec"
                                (.obj (objSet sObj "containers" (.list cs2)))))
                            else .patched (.obj dObj))
                   | _ => .errorReturn)
            | none =>
                (match pyGetD sObj "containers" (.list []) with
                 | .list cs =>
                     (match updateContainers sugg (metaName dObj) cs with
                      | none => .errorReturn
                      | some cs2 =>
                          if hasKey dObj "spec" then
                            .patched (.obj (objSet dObj "spec"
                              (.obj (objSet sObj "containers" (.list cs2)))))
                          else .patched (.obj dObj))
                 | _ => .errorReturn))
       | _ => .errorReturn)
  | _ => .errorReturn

/-! ### Shared helper lemmas -/

/-- Evaluation of `compute_rightsizing` once its four field parses are known. -/
theorem compute_rightsizing_eval (wd : Obj) (cr mr cu mu : ℚ)
    (h1 : parse_cpu_to_cores (pyGetD wd "cpu_requested" (.str "0")) = .ok cr)
    (h2 : parse_mem_to_gb (pyGetD wd "memory_requested" (.str "0")) = .ok mr)
    (h3 : pyFloatOf (pyGetD wd "cpu_used" (.num 0)) = .ok cu)
    (h4 : pyFloatOf (pyGetD wd "memory_used" (.num 0)) = .ok mu) :
    compute_rightsizing wd = .ok
      { suggested_cpu := max (1 / 1000) (cu * DEFAULT_BUFFER)
        suggested_mem_gb := max (1 / 1000) (mu * DEFAULT_BUFFER)
        monthly_saving_usd :=
          ((if max (1 / 1000) (cu * DEFAULT_BUFFER) < cr * REDUCTION_THRESHOLD
              then cr - max (1 / 1000) (cu * DEFAULT_BUFFER) else 0) * COST_PER_CPU_HOUR +
           (if max (1 / 1000) (mu * DEFAULT_BUFFER) < mr * REDUCTION_THRESHOLD
              then mr - max (1 / 1000) (mu * DEFAULT_BUFFER) else 0) * COST_PER_GB_HOUR) *
            HOURS_PER_MONTH } := by
  unfold compute_rightsizing
  rw [h1, h2, h3, h4]
  rfl

/-! ### Claim theorems -/

/-- C3 (code_bug evaluation): the conversion functions raise `ValueError` on
unparseable and empty strings — `float()` raises there and utils.py lines
10-13 and 21-32 only special-case `None` — although the repository's own
tests (tests.py lines 27-28, 41-42) assert they return `0.0`.  The last two
conjuncts record the working cases those tests also assert. -/
theorem C3_unparseable_input_raises :
    parse_cpu_to_cores (.str "invalid") = .error "ValueError" ∧
    parse_cpu_to_cores (.str "") = .error "ValueError" ∧
    parse_mem_to_gb (.str "invalid") = .error "ValueError" ∧
    parse_mem_to_gb (.str "") = .error "ValueError" ∧
    parse_cpu_to_cores (.str "100m") = .ok (1 / 10) ∧
    parse_cpu_to_cores (.str "2") = .ok 2 := by
  refine ⟨rfl, rfl, rfl, rfl, ?_, ?_⟩ <;>
    · simp [parse_cpu_to_cores, pyStrip, stripLeft, isPyWs, endsWithCL, takeLast, dropLast',
        pyFloatChars, pyFloatMantissa, spanDigits, parseExp, readDigits, digitVal,
        scalePow10, pow10]
      try norm_num

/-- C4 (counterexample): with all averages giving 15% utilization the rule
fires, but the recommended values are `used * 2 * 1.2 = 2.4 ×` used
(main.py lines 504-505), not `2.2 ×` used as claimed: at `used = 0.15`
the code recommends `0.36`, while `2.2 × 0.15 = 0.33`. -/
theorem C4_counterexample :
    analyze_opportunities_rightsizing 1 (3 / 20) 1 (3 / 20) =
      some { recommended_cpu := 9 / 25, recommended_memory := 9 / 25,
             risk_level := "medium", confidence := 3 / 5 } ∧
    ¬ ((9 : ℚ) / 25 = (11 / 5) * (3 / 20)) := by
  constructor
  · norm_num [analyze_opportunities_rightsizing]
  · norm_num

/-- C4 (amended): the rightsizing detection rule of `analyze_opportunities`
fires exactly when CPU or memory utilization is below 20%, recommends
`2.4 × (= 2 × 1.2)` the averaged used values — not 2.2 × — and bands
risk/confidence as low/0.9 when either utilization is below 10%,
medium/0.75 when either is below 15%, and medium/0.6 otherwise. -/
theorem C4_rightsizing_rule (acr acu amr amu : ℚ) (hc : 0 < acr) (hm : 0 < amr) :
    (acu / acr * 100 < 20 ∨ amu / amr * 100 < 20 →
      analyze_opportunities_rightsizing acr acu amr amu =
        some { recommended_cpu := acu * 2 * (6 / 5)
               recommended_memory := amu * 2 * (6 / 5)
               risk_level :=
                 if acu / acr * 100 < 10 ∨ amu / amr * 100 < 10 then "low" else "medium"
               confidence :=
                 if acu / acr * 100 < 10 ∨ amu / amr * 100 < 10 then 9 / 10
                 else if acu / acr * 100 < 15 ∨ amu / amr * 100 < 15 then 3 / 4
                 else 3 / 5 }) ∧
    (¬ (acu / acr * 100 < 20 ∨ amu / amr * 100 < 20) →
      analyze_opportunities_rightsizing acr acu amr amu = none) := by
  simp only [analyze_opportunities_rightsizing, if_pos hc, if_pos hm]
  constructor
  · intro h
    rw [if_pos h]
    split_ifs <;> rfl
  · intro h
    rw [if_neg h]

/-- C4 (witness). -/
theorem C4_rightsizing_rule_witness :
    analyze_opportunities_rightsizing 1 (1 / 20) 1 1 =
      some { recommended_cpu := (1 / 20) * 2 * (6 / 5)
             recommended_memory := 1 * 2 * (6 / 5)
             risk_level := "low", confidence := 9 / 10 } := by
  have h := (C4_rightsizing_rule 1 (1 / 20) 1 1 (by norm_num) (by norm_num)).1
    (by norm_num)
  rw [h]
  norm_num

/-- The claim's worked sample: `cpu_requested="2"`, `memory_requested="4Gi"`,
`cpu_used=0.5`, `memory_used=1.0`. -/
def C5sample : Obj :=
  [("cpu_requested", .str "2"), ("memory_requested", .str "4Gi"),
   ("cpu_used", .num (1 / 2)), ("memory_used", .num 1)]

/-- `parse_cpu_to_cores "2"` evaluates to 2 cores. -/
theorem lem_parse_cpu_2 : parse_cpu_to_cores (.str "2") = .ok 2 := by
  simp [parse_cpu_to_cores, pyStrip, stripLeft, isPyWs, endsWithCL, takeLast, dropLast',
    pyFloatChars, pyFloatMantissa, spanDigits, parseExp, readDigits, digitVal, scalePow10, pow10]

/-- `parse_mem_to_gb "4Gi"` evaluates to 4 GB. -/
theorem lem_parse_mem_4Gi : parse_mem_to_gb (.str "4Gi") = .ok 4 := by
  simp [parse_mem_to_gb, pyStrip, stripLeft, isPyWs, pyUpper, pyUpperChar, endsWithCL,
    takeLast, dropLast', pyFloatChars, pyFloatMantissa, spanDigits, parseExp, readDigits,
    digitVal, scalePow10, pow10]
  try norm_num

/-- C5 (confirmed): whenever its four field parses succeed (they raise on
unparseable strings — that is C3's finding), `compute_rightsizing` suggests
`max(0.001, used × 1.25)` per resource (strictly positive), counts a
reduction only when the suggestion is below `0.85 ×` the request, and prices
it at `(cpu_red × 0.02 + mem_red × 0.005) × 720`; on the claim's sample it
returns suggested CPU `0.625`, suggested memory `1.25` GB and a strictly
positive monthly saving. -/
theorem C5_compute_rightsizing_algorithm :
    (∀ (wd : Obj) (cr mr cu mu : ℚ),
      parse_cpu_to_cores (pyGetD wd "cpu_requested" (.str "0")) = .ok cr →
      parse_mem_to_gb (pyGetD wd "memory_requested" (.str "0")) = .ok mr →
      pyFloatOf (pyGetD wd "cpu_used" (.num 0)) = .ok cu →
      pyFloatOf (pyGetD wd "memory_used" (.num 0)) = .ok mu →
      ∃ r, compute_rightsizing wd = .ok r ∧
        r.suggested_cpu = max (1 / 1000) (cu * (5 / 4)) ∧
        r.suggested_mem_gb = max (1 / 1000) (mu * (5 / 4)) ∧
        0 < r.suggested_cpu ∧ 0 < r.suggested_mem_gb ∧
        r.monthly_saving_usd =
          ((if r.suggested_cpu < cr * (17 / 20) then cr - r.suggested_cpu else 0) * (1 / 50) +
           (if r.suggested_mem_gb < mr * (17 / 20) then mr - r.suggested_mem_gb else 0) *
             (1 / 200)) * (24 * 30)) ∧
    (∃ r, compute_rightsizing C5sample = .ok r ∧
      r.suggested_cpu = 5 / 8 ∧ r.suggested_mem_gb = 5 / 4 ∧ 0 < r.monthly_saving_usd) := by
  have key : ∀ (wd : Obj) (cr mr cu mu : ℚ),
      parse_cpu_to_cores (pyGetD wd "cpu_requested" (.str "0")) = .ok cr →
      parse_mem_to_gb (pyGetD wd "memory_requested" (.str "0")) = .ok mr →
      pyFloatOf (pyGetD wd "cpu_used" (.num 0)) = .ok cu →
      pyFloatOf (pyGetD wd "memory_used" (.num 0)) = .ok mu →
      ∃ r, compute_rightsizing wd = .ok r ∧
        r.suggested_cpu = max (1 / 1000) (cu * (5 / 4)) ∧
        r.suggested_mem_gb = max (1 / 1000) (mu * (5 / 4)) ∧
        0 < r.suggested_cpu ∧ 0 < r.suggested_mem_gb ∧
        r.monthly_saving_usd =
          ((if r.suggested_cpu < cr * (17 / 20) then cr - r.suggested_cpu else 0) * (1 / 50) +
           (if r.suggested_mem_gb < mr * (17 / 20) then mr - r.suggested_mem_gb else 0) *
             (1 / 200)) * (24 * 30) := by
    intro wd cr mr cu mu h1 h2 h3 h4
    refine ⟨_, compute_rightsizing_eval wd cr mr cu mu h1 h2 h3 h4, ?_, ?_, ?_, ?_, ?_⟩
    · simp [DEFAULT_BUFFER]
    · simp [DEFAULT_BUFFER]
    · exact lt_max_of_lt_left (by norm_num)
    · exact lt_max_of_lt_left (by norm_num)
    · simp [DEFAULT_BUFFER, REDUCTION_THRESHOLD, COST_PER_CPU_HOUR, COST_PER_GB_HOUR,
        HOURS_PER_MONTH]
  refine ⟨key, ?_⟩
  obtain ⟨r, hr, e1, e2, _, _, e3⟩ := key C5sample 2 4 (1 / 2) 1
    lem_parse_cpu_2 lem_parse_mem_4Gi rfl rfl
  have hcpu : r.suggested_cpu = 5 / 8 := by rw [e1]; norm_num
  have hmem : r.suggested_mem_gb = 5 / 4 := by rw [e2]; norm_num
  refine ⟨r, hr, hcpu, hmem, ?_⟩
  rw [e3, hcpu, hmem]
  norm_num

/-- C5 (witness): the universal part applied at the claim's sample. -/
theorem C5_compute_rightsizing_algorithm_witness :
    ∃ r, compute_rightsizing C5sample = .ok r ∧
      r.suggested_cpu = max (1 / 1000) ((1 / 2) * (5 / 4)) := by
  obtain ⟨r, hr, e1, _⟩ := C5_compute_rightsizing_algorithm.1 C5sample 2 4 (1 / 2) 1
    lem_parse_cpu_2 lem_parse_mem_4Gi rfl rfl
  exact ⟨r, hr, e1⟩

/-- A deployment-shaped workload with one container running `img`. -/
def imageWorkload (img : String) : Obj :=
  [("spec", .obj [("template", .obj [("spec", .obj [("containers",
    .list [.obj [("name", .str "c"), ("image", .str img)]])])])])]

/-- C7 (counterexample): an image one byte over the 200 MB threshold is
truncated by the resolver (`int(total_size / (1024 * 1024))`, registry.py
line 235) back to 200 MB, and the strict `>` comparison (registry.py line
306) then yields NO opportunity, where the claim asserts exactly one. -/
theorem C7_counterexample :
    docker_hub_size_mb (200 * 1024 * 1024 + 1) = 200 ∧
    (analyze_image_optimization_opportunities
        (fun _ => some (docker_hub_size_mb (200 * 1024 * 1024 + 1)))
        (imageWorkload "nginx:latest")).1 = [] := by
  constructor
  · norm_num [docker_hub_size_mb]
  · norm_num [analyze_image_optimization_opportunities, imageWorkload, pyGet, pyGetD, hasKey,
      imageOpps, docker_hub_size_mb, DEFAULT_IMAGE_SIZE_THRESHOLD_MB]
    intro _
    split <;> rfl

/-- C7 (amended): an image resolved at exactly the 200 MB threshold yields no
opportunity and a resolver miss yields none; an opportunity fires exactly
when the resolved (truncated, integer) size strictly exceeds 200, so a raw
size of one byte over the threshold — which the resolver truncates to
200 MB — yields none, while any raw size of at least 201 MiB does exceed it. -/
theorem C7_image_threshold_rule (img : String) (sz : ℤ) :
    ((analyze_image_optimization_opportunities (fun _ => some sz) (imageWorkload img)).1 =
      if sz ≠ 0 ∧ 200 < sz then [imageOpportunity img sz] else []) ∧
    (analyze_image_optimization_opportunities (fun _ => some 200) (imageWorkload img)).1 = [] ∧
    (analyze_image_optimization_opportunities (fun _ => none) (imageWorkload img)).1 = [] ∧
    docker_hub_size_mb (200 * 1024 * 1024) = 200 ∧
    (∀ b : ℕ, 201 * 1024 * 1024 ≤ b → 200 < docker_hub_size_mb b) := by
  refine ⟨?_, ?_, ?_, by norm_num [docker_hub_size_mb], ?_⟩
  · by_cases h : sz ≠ 0 ∧ 200 < sz
    · simp only [if_pos h]
      simp [analyze_image_optimization_opportunities, imageWorkload, pyGet, pyGetD, hasKey,
        imageOpps, DEFAULT_IMAGE_SIZE_THRESHOLD_MB, h]
    · simp only [if_neg h]
      simp [analyze_image_optimization_opportunities, imageWorkload, pyGet, pyGetD, hasKey,
        imageOpps, DEFAULT_IMAGE_SIZE_THRESHOLD_MB, h]
  · norm_num [analyze_image_optimization_opportunities, imageWorkload, pyGet, pyGetD, hasKey,
      imageOpps, DEFAULT_IMAGE_SIZE_THRESHOLD_MB]
    intro _
    split <;> rfl
  · simp [analyze_image_optimization_opportunities, imageWorkload, pyGet, pyGetD, hasKey,
      imageOpps]
  · intro b hb
    have h1 : (201 : ℕ) ≤ b / (1024 * 1024) := by
      rw [Nat.le_div_iff_mul_le (by norm_num)]
      omega
    unfold docker_hub_size_mb
    exact_mod_cast lt_of_lt_of_le (by norm_num) h1

/-- C7 (witness): the rule applied at a 201 MB image and the 201 MiB raw
size bound. -/
theorem C7_image_threshold_rule_witness :
    (analyze_image_optimization_opportunities (fun _ => some 201)
      (imageWorkload "nginx:latest")).1 = [imageOpportunity "nginx:latest" 201] ∧
    200 < docker_hub_size_mb (201 * 1024 * 1024) := by
  have h := C7_image_threshold_rule "nginx:latest" 201
  constructor
  · have h1 := h.1
    rw [if_pos (by norm_num)] at h1
    exact h1
  · exact h.2.2.2.2 (201 * 1024 * 1024) le_rfl

/-- Decimal digit characters. -/
def digChar (c : Char) : Bool :=
  decide (c ∈ ['0', '1', '2', '3', '4', '5', '6', '7', '8', '9'])

/-- Characters of a plain decimal numeral (digits or a point). -/
def numChar (c : Char) : Bool :=
  decide (c ∈ ['0', '1', '2', '3', '4', '5', '6', '7', '8', '9', '.'])

/-- Digit characters are numeral characters. -/
theorem lem_digChar_numChar (c : Char) (h : digChar c = true) : numChar c = true := by
  simp [digChar] at h
  rcases h with rfl | rfl | rfl | rfl | rfl | rfl | rfl | rfl | rfl | rfl <;> decide

/-- Pointwise facts about numeral characters. -/
theorem lem_numChar_facts (c : Char) (h : numChar c = true) :
    isPyWs c = false ∧ pyUpperChar c = c := by
  simp [numChar] at h
  rcases h with rfl | rfl | rfl | rfl | rfl | rfl | rfl | rfl | rfl | rfl | rfl <;> decide

/-- Pointwise facts about digit characters. -/
theorem lem_digChar_facts (c : Char) (h : digChar c = true) :
    c.isDigit = true ∧ isPyWs c = false ∧ c ∉ (['m'] : List Char) ∧
    c ∉ (['M', 'i'] : List Char) := by
  simp [digChar] at h
  rcases h with rfl | rfl | rfl | rfl | rfl | rfl | rfl | rfl | rfl | rfl <;> decide

/-- `stripLeft` is the identity on whitespace-free lists. -/
theorem lem_stripLeft_id (cs : List Char) (h : ∀ c ∈ cs, isPyWs c = false) :
    stripLeft cs = cs := by
  cases cs with
  | nil => rfl
  | cons c t => simp [stripLeft, h c (List.mem_cons_self c t)]

/-- `pyStrip` is the identity on whitespace-free lists. -/
theorem lem_pyStrip_id (cs : List Char) (h : ∀ c ∈ cs, isPyWs c = false) :
    pyStrip cs = cs := by
  unfold pyStrip
  rw [lem_stripLeft_id cs h,
    lem_stripLeft_id cs.reverse (fun c hc => h c (List.mem_reverse.mp hc)),
    List.reverse_reverse]

/-- `pyUpper` is the identity on numeral characters. -/
theorem lem_pyUpper_clean (cs : List Char) (h : ∀ c ∈ cs, numChar c = true) :
    pyUpper cs = cs := by
  unfold pyUpper
  induction cs with
  | nil => rfl
  | cons c t ih =>
      rw [List.map_cons, (lem_numChar_facts c (h c (List.mem_cons_self c t))).2,
        ih (fun c hc => h c (List.mem_cons_of_mem _ hc))]

/-- `spanDigits` consumes an all-digit list whole. -/
theorem lem_spanDigits_all (ds : List Char) (h : ∀ c ∈ ds, c.isDigit = true) :
    spanDigits ds = (ds, []) := by
  induction ds with
  | nil => rfl
  | cons c t ih =>
      rw [spanDigits, if_pos (h c (List.mem_cons_self c t)),
        ih (fun c hc => h c (List.mem_cons_of_mem _ hc))]

/-- `pyIntChars` reads a non-empty all-digit list as its decimal value. -/
theorem lem_pyIntChars_digits (ds : List Char) (h : ∀ c ∈ ds, digChar c = true)
    (hne : ds ≠ []) : pyIntChars ds = some (readDigits ds 0) := by
  unfold pyIntChars
  rw [lem_pyStrip_id ds (fun c hc => (lem_digChar_facts c (h c hc)).2.1)]
  cases ds with
  | nil => exact absurd rfl hne
  | cons c t =>
      have hdig : ∀ x ∈ c :: t, x.isDigit = true :=
        fun x hx => (lem_digChar_facts x (h x hx)).1
      have hc : digChar c = true := h c (List.mem_cons_self c t)
      have hplus : c ≠ '+' := by
        simp [digChar] at hc
        rcases hc with rfl | rfl | rfl | rfl | rfl | rfl | rfl | rfl | rfl | rfl <;> decide
      have hminus : c ≠ '-' := by
        simp [digChar] at hc
        rcases hc with rfl | rfl | rfl | rfl | rfl | rfl | rfl | rfl | rfl | rfl <;> decide
      split
      · next tl heq => exact absurd (List.head_eq_of_cons_eq heq.symm).symm hplus
      · next tl heq => exact absurd (List.head_eq_of_cons_eq heq.symm).symm hminus
      · next tl h1 h2 =>
          rw [lem_spanDigits_all (c :: t) hdig]
          simp

/-- The trailing-strip helper skips a prefix drawn from the set. -/
theorem lem_stripAux_skip (set pre rest : List Char) (h : ∀ c ∈ pre, c ∈ set) :
    rstripSet.stripAux set (pre ++ rest) = rstripSet.stripAux set rest := by
  induction pre with
  | nil => rfl
  | cons c t ih =>
      rw [List.cons_append, rstripSet.stripAux, if_pos (h c (List.mem_cons_self c t)),
        ih (fun c hc => h c (List.mem_cons_of_mem _ hc))]

/-- `rstripSet` removes an appended suffix of set characters from a list
whose own characters are all outside the set. -/
theorem lem_rstripSet_append (ds sfx set : List Char)
    (hds : ∀ c ∈ ds, c ∉ set) (hsfx : ∀ c ∈ sfx, c ∈ set) :
    rstripSet (ds ++ sfx) set = ds := by
  unfold rstripSet
  rw [List.reverse_append, lem_stripAux_skip set sfx.reverse ds.reverse
    (fun c hc => hsfx c (List.mem_reverse.mp hc))]
  cases hr : ds.reverse with
  | nil =>
      have : ds = [] := by simpa using congrArg List.reverse hr
      simp [this, rstripSet.stripAux]
  | cons c t =>
      have hcm : c ∈ ds := List.mem_reverse.mp (hr ▸ List.mem_cons_self c t)
      rw [rstripSet.stripAux, if_neg (hds c hcm), ← hr, List.reverse_reverse]

/-- `takeLast` of an appended suffix, at the suffix's length, is the suffix. -/
theorem lem_takeLast_append_self (l sfx : List Char) :
    takeLast (l ++ sfx) sfx.length = sfx := by
  unfold takeLast
  rw [List.length_append, Nat.add_sub_cancel, List.drop_left]

/-- `endsWithCL` holds for an appended suffix. -/
theorem lem_endsWith_append_self (l sfx : List Char) :
    endsWithCL (l ++ sfx) sfx = true := by
  simp [endsWithCL, lem_takeLast_append_self]

/-- Peeling the last element out of `takeLast`. -/
theorem lem_takeLast_concat (l : List Char) (a : Char) (n : ℕ) :
    takeLast (l ++ [a]) (n + 1) = takeLast l n ++ [a] := by
  unfold takeLast
  rw [List.length_append, List.drop_append_eq_append_drop]
  have h1 : l.length + [a].length - (n + 1) - l.length = 0 := by
    simp only [List.length_singleton]
    omega
  have h2 : l.length + [a].length - (n + 1) = l.length - n := by
    simp only [List.length_singleton]
    omega
  rw [h1, h2, List.drop_zero]

/-- A list whose last element differs from the suffix's last element does not
end with that suffix. -/
theorem lem_endsWith_last_ne (l : List Char) (a : Char) (sfx : List Char) (b : Char)
    (hsfx : sfx.getLast? = some b) (hne : a ≠ b) :
    endsWithCL (l ++ [a]) sfx = false := by
  simp only [endsWithCL, decide_eq_false_iff_not]
  intro h
  cases hn : sfx.length with
  | zero =>
      rw [List.length_eq_zero] at hn
      rw [hn] at hsfx
      exact absurd hsfx (by simp)
  | succ n =>
      rw [hn, lem_takeLast_concat] at h
      have := congrArg List.getLast? h
      rw [hsfx] at this
      simp at this
      exact hne this

/-- Dropping an appended suffix, at the suffix's length, recovers the list. -/
theorem lem_dropLast_append_self (l sfx : List Char) :
    dropLast' (l ++ sfx) sfx.length = l := by
  unfold dropLast'
  rw [List.length_append, Nat.add_sub_cancel, List.take_left]

/-- Modelled from the spec: the rendering rule the claim asserts for CPU
requests, `round(cores × 1000)` with Python's round-half-to-even. -/
def claimedRoundMillis (cores : ℚ) : ℤ :=
  pyRoundEven (cores * 1000)

/-- C9 (counterexample): the code renders with `int()` truncation, not
`round` — at 0.0015 cores it emits `1m` where `round` gives 2 — and in
template mode (`generate_yaml_patch_for_workload`) the limit is computed
from the RAW float (`int(rc * 1.5 * 1000)`, ai_advisor.py line 116): at
0.0007 cores the emitted request is `0m` but the emitted limit is `1m`,
whereas `round(1.5 × rendered request) = 0`. -/
theorem C9_counterexample :
    (yamlPatchNums (3 / 2000) (1 / 2)).request_cpu_millis = 1 ∧
    claimedRoundMillis (3 / 2000) = 2 ∧
    (yamlPatchNums (7 / 10000) (1 / 2)).request_cpu_millis = 0 ∧
    (yamlPatchNums (7 / 10000) (1 / 2)).limit_cpu_millis = 1 ∧
    pyRoundEven ((3 / 2) * ((yamlPatchNums (7 / 10000) (1 / 2)).request_cpu_millis : ℚ)) = 0 := by
  have e1 : (yamlPatchNums (3 / 2000) (1 / 2)).request_cpu_millis = 1 := by
    show pyTrunc ((3 / 2000 : ℚ) * 1000) = 1
    norm_num [pyTrunc]
    decide
  have e2 : claimedRoundMillis (3 / 2000) = 2 := by
    unfold claimedRoundMillis pyRoundEven
    norm_num
  have e3 : (yamlPatchNums (7 / 10000) (1 / 2)).request_cpu_millis = 0 := by
    show pyTrunc ((7 / 10000 : ℚ) * 1000) = 0
    norm_num [pyTrunc]
    decide
  have e4 : (yamlPatchNums (7 / 10000) (1 / 2)).limit_cpu_millis = 1 := by
    show pyTrunc ((7 / 10000 : ℚ) * (3 / 2) * 1000) = 1
    norm_num [pyTrunc]
    decide
  refine ⟨e1, e2, e3, e4, ?_⟩
  rw [e3]
  unfold pyRoundEven
  norm_num

/-- C9 (amended): requests and limits are rendered with `int()` truncation,
not `round`.  In template mode the four integers are `trunc(rc·1000)`,
`trunc(rm·1024)`, `trunc(rc·1.5·1000)` and `trunc(rm·1.5·1024)` — the limits
come from the raw floats, and can disagree with `trunc(1.5 × rendered
request)` (last conjunct).  In merge mode a matched container's limit
strings ARE derived from the already-truncated integer requests:
`trunc(1.5 × n)` for the request string `"<n>m"` (resp. `"<n>Mi"`). -/
theorem C9_rendering_truncation (rc rm : ℚ) :
    (yamlPatchNums rc rm).request_cpu_millis = pyTrunc (rc * 1000) ∧
    (yamlPatchNums rc rm).request_memory_mib = pyTrunc (rm * 1024) ∧
    (yamlPatchNums rc rm).limit_cpu_millis = pyTrunc (rc * (3 / 2) * 1000) ∧
    (yamlPatchNums rc rm).limit_memory_mib = pyTrunc (rm * (3 / 2) * 1024) ∧
    (∀ (sugg : SuggestedResources) (w cn : String) (co : Obj) (ds1 ds2 : List Char),
      (∀ c ∈ ds1, digChar c = true) → ds1 ≠ [] →
      (∀ c ∈ ds2, digChar c = true) → ds2 ≠ [] →
      pyGet co "name" = some (.str cn) →
      pyGet co "resources" = none →
      lookupSR sugg (w, cn) =
        some ⟨String.mk (ds1 ++ ['m']), String.mk (ds2 ++ ['M', 'i'])⟩ →
      updateContainer sugg (some w) (.obj co) = some (.obj (objSet co "resources" (.obj
        [("requests", .obj [("cpu", .str (String.mk (ds1 ++ ['m']))),
                            ("memory", .str (String.mk (ds2 ++ ['M', 'i'])))]),
         ("limits", .obj [("cpu", .str (mergeLimitCpu (readDigits ds1 0))),
                          ("memory", .str (mergeLimitMem (readDigits ds2 0)))])])))) ∧
    ((yamlPatchNums (7 / 10000) (1 / 2)).limit_cpu_millis ≠
      pyTrunc ((3 / 2) * ((yamlPatchNums (7 / 10000) (1 / 2)).request_cpu_millis : ℚ))) := by
  refine ⟨rfl, rfl, rfl, rfl, ?_, ?_⟩
  · intro sugg w cn co ds1 ds2 h1 hne1 h2 hne2 hname hres hlook
    have hint1 : pyIntChars (rstripSet (String.mk (ds1 ++ ['m'])).data ['m']) =
        some (readDigits ds1 0) := by
      show pyIntChars (rstripSet (ds1 ++ ['m']) ['m']) = some (readDigits ds1 0)
      rw [lem_rstripSet_append ds1 ['m'] ['m']
        (fun c hc => (lem_digChar_facts c (h1 c hc)).2.2.1) (fun c hc => hc)]
      exact lem_pyIntChars_digits ds1 h1 hne1
    have hint2 : pyIntChars (rstripSet (String.mk (ds2 ++ ['M', 'i'])).data ['M', 'i']) =
        some (readDigits ds2 0) := by
      show pyIntChars (rstripSet (ds2 ++ ['M', 'i']) ['M', 'i']) = some (readDigits ds2 0)
      rw [lem_rstripSet_append ds2 ['M', 'i'] ['M', 'i']
        (fun c hc => (lem_digChar_facts c (h2 c hc)).2.2.2) (fun c hc => hc)]
      exact lem_pyIntChars_digits ds2 h2 hne2
    simp only [updateContainer, hname, hlook, pyGetD, hres, hint1, hint2, pyGet]
    simp [objSet]
  · have e3 : (yamlPatchNums (7 / 10000) (1 / 2)).request_cpu_millis = 0 := by
      show pyTrunc ((7 / 10000 : ℚ) * 1000) = 0
      norm_num [pyTrunc]
      decide
    have e4 : (yamlPatchNums (7 / 10000) (1 / 2)).limit_cpu_millis = 1 := by
      show pyTrunc ((7 / 10000 : ℚ) * (3 / 2) * 1000) = 1
      norm_num [pyTrunc]
      decide
    rw [e3, e4]
    norm_num [pyTrunc]

/-- C9 (witness): the merge-mode part applied to the repository's own sample
(`"375m"`/`"1536Mi"`, ai_advisor.py lines 395-400). -/
theorem C9_rendering_truncation_witness :
    updateContainer [(("w", "c"), ⟨"375m", "1536Mi"⟩)] (some "w")
      (.obj [("name", .str "c")]) = some (.obj [("name", .str "c"),
        ("resources", .obj
          [("requests", .obj [("cpu", .str "375m"), ("memory", .str "1536Mi")]),
           ("limits", .obj [("cpu", .str (mergeLimitCpu 375)),
                            ("memory", .str (mergeLimitMem 1536))])])]) := by
  have h := (C9_rendering_truncation 0 0).2.2.2.2.1
    [(("w", "c"), ⟨"375m", "1536Mi"⟩)] "w" "c" [("name", .str "c")]
    ['3', '7', '5'] ['1', '5', '3', '6']
    (by decide) (by decide) (by decide) (by decide) rfl rfl rfl
  refine h.trans ?_
  simp [objSet, readDigits, digitVal]


theorem lem_takeLast_zero (l : List Char) : takeLast l 0 = [] := by
  simp [takeLast]

theorem lem_takeLast_one (l : List Char) (a : Char) : takeLast (l ++ [a]) 1 = [a] := by
  rw [show (1 : ℕ) = 0 + 1 from rfl, lem_takeLast_concat, lem_takeLast_zero]
  rfl

theorem lem_takeLast_two (l : List Char) (a b : Char) :
    takeLast (l ++ [a, b]) 2 = [a, b] := by
  rw [show l ++ [a, b] = (l ++ [a]) ++ [b] by simp,
    show (2 : ℕ) = 1 + 1 from rfl, lem_takeLast_concat, lem_takeLast_one]
  rfl

theorem lem_noWs_append (cs sfx : List Char) (hclean : ∀ c ∈ cs, numChar c = true)
    (hsfx : ∀ c ∈ sfx, isPyWs c = false) :
    ∀ c ∈ cs ++ sfx, isPyWs c = false := by
  intro c hc
  rcases List.mem_append.mp hc with h | h
  · exact (lem_numChar_facts c (hclean c h)).1
  · exact hsfx c h

theorem lem_parse_mem_Gi (cs : List Char) (q : ℚ)
    (hclean : ∀ c ∈ cs, numChar c = true) (hq : pyFloatChars cs = some q) :
    parse_mem_to_gb (.str (String.mk (cs ++ ['G', 'i']))) = .ok q := by
  have hs : pyUpper (pyStrip (cs ++ ['G', 'i'])) = cs ++ ['G', 'I'] := by
    rw [lem_pyStrip_id _ (lem_noWs_append cs ['G', 'i'] hclean (by decide)),
      pyUpper, List.map_append, ← pyUpper, lem_pyUpper_clean cs hclean]
    rfl
  have hend : endsWithCL (cs ++ ['G', 'I']) ['G', 'I'] = true :=
    lem_endsWith_append_self cs ['G', 'I']
  have hdrop : dropLast' (cs ++ ['G', 'I']) 2 = cs :=
    lem_dropLast_append_self cs ['G', 'I']
  simp only [parse_mem_to_gb]
  rw [hs]
  simp only [hend, if_true, hdrop, hq]

theorem lem_parse_mem_G (cs : List Char) (q : ℚ)
    (hclean : ∀ c ∈ cs, numChar c = true) (hq : pyFloatChars cs = some q) :
    parse_mem_to_gb (.str (String.mk (cs ++ ['G']))) = .ok q := by
  have hs : pyUpper (pyStrip (cs ++ ['G'])) = cs ++ ['G'] := by
    rw [lem_pyStrip_id _ (lem_noWs_append cs ['G'] hclean (by decide)),
      pyUpper, List.map_append, ← pyUpper, lem_pyUpper_clean cs hclean]
    rfl
  have h1 : endsWithCL (cs ++ ['G']) ['G', 'I'] = false :=
    lem_endsWith_last_ne cs 'G' ['G', 'I'] 'I' (by simp) (by decide)
  have h2 : endsWithCL (cs ++ ['G']) ['G'] = true := lem_endsWith_append_self cs ['G']
  have hdrop : dropLast' (cs ++ ['G']) 1 = cs := lem_dropLast_append_self cs ['G']
  simp only [parse_mem_to_gb]
  rw [hs]
  simp only [h1, h2, if_true, Bool.false_eq_true, if_false, hdrop, hq]

theorem lem_parse_mem_Mi (cs : List Char) (q : ℚ)
    (hclean : ∀ c ∈ cs, numChar c = true) (hq : pyFloatChars cs = some q) :
    parse_mem_to_gb (.str (String.mk (cs ++ ['M', 'i']))) = .ok (q / 1024) := by
  have hs : pyUpper (pyStrip (cs ++ ['M', 'i'])) = cs ++ ['M', 'I'] := by
    rw [lem_pyStrip_id _ (lem_noWs_append cs ['M', 'i'] hclean (by decide)),
      pyUpper, List.map_append, ← pyUpper, lem_pyUpper_clean cs hclean]
    rfl
  have h1 : endsWithCL (cs ++ ['M', 'I']) ['G', 'I'] = false := by
    simp [endsWithCL, lem_takeLast_two]
  have h2 : endsWithCL (cs ++ ['M', 'I']) ['G'] = false := by
    have ht : takeLast (cs ++ ['M', 'I']) 1 = ['I'] := by
      rw [show cs ++ ['M', 'I'] = (cs ++ ['M']) ++ ['I'] by simp, lem_takeLast_one]
    simp [endsWithCL, ht]
  have h3 : endsWithCL (cs ++ ['M', 'I']) ['M', 'I'] = true :=
    lem_endsWith_append_self cs ['M', 'I']
  have hdrop : dropLast' (cs ++ ['M', 'I']) 2 = cs := lem_dropLast_append_self cs ['M', 'I']
  simp only [parse_mem_to_gb]
  rw [hs]
  simp only [h1, h2, h3, if_true, Bool.false_eq_true, if_false, hdrop, hq]

theorem lem_parse_mem_M (cs : List Char) (q : ℚ)
    (hclean : ∀ c ∈ cs, numChar c = true) (hq : pyFloatChars cs = some q) :
    parse_mem_to_gb (.str (String.mk (cs ++ ['M']))) = .ok (q / 1024) := by
  have hs : pyUpper (pyStrip (cs ++ ['M'])) = cs ++ ['M'] := by
    rw [lem_pyStrip_id _ (lem_noWs_append cs ['M'] hclean (by decide)),
      pyUpper, List.map_append, ← pyUpper, lem_pyUpper_clean cs hclean]
    rfl
  have h1 : endsWithCL (cs ++ ['M']) ['G', 'I'] = false :=
    lem_endsWith_last_ne cs 'M' ['G', 'I'] 'I' (by simp) (by decide)
  have h2 : endsWithCL (cs ++ ['M']) ['G'] = false := by
    simp [endsWithCL, lem_takeLast_one]
  have h3 : endsWithCL (cs ++ ['M']) ['M', 'I'] = false :=
    lem_endsWith_last_ne cs 'M' ['M', 'I'] 'I' (by simp) (by decide)
  have h4 : endsWithCL (cs ++ ['M']) ['M'] = true := lem_endsWith_append_self cs ['M']
  have hdrop : dropLast' (cs ++ ['M']) 1 = cs := lem_dropLast_append_self cs ['M']
  simp only [parse_mem_to_gb]
  rw [hs]
  simp only [h1, h2, h3, h4, if_true, Bool.false_eq_true, if_false, hdrop, hq]

/-- Modelled from the spec: decimal-suffix semantics for memory strings —
`"<n>G"` denotes `n × 10⁹` bytes, expressed in the converter's GB unit of
`2³⁰` bytes (the spec fixes `1 Gi = 2^30 bytes` as `1.0` GB). -/
def claimedDecimalG (n : ℚ) : ℚ :=
  n * 1000000000 / 1073741824

/-- C10 (counterexample): `parse_mem_to_gb` treats the decimal suffix `G`
identically to the binary suffix `Gi` (utils.py lines 22-25 both return the
bare number): `"1G"` yields `1.0`, which is NOT the decimal value
`10⁹/2³⁰ ≈ 0.931` the claim requires for decimal semantics. -/
theorem C10_counterexample :
    parse_mem_to_gb (.str "1G") = .ok 1 ∧
    parse_mem_to_gb (.str "1Gi") = .ok 1 ∧
    claimedDecimalG 1 ≠ 1 := by
  refine ⟨?_, ?_, ?_⟩
  · simp [parse_mem_to_gb, pyStrip, stripLeft, isPyWs, pyUpper, pyUpperChar, endsWithCL,
      takeLast, dropLast', pyFloatChars, pyFloatMantissa, spanDigits, parseExp, readDigits,
      digitVal, scalePow10, pow10]
    try norm_num
  · simp [parse_mem_to_gb, pyStrip, stripLeft, isPyWs, pyUpper, pyUpperChar, endsWithCL,
      takeLast, dropLast', pyFloatChars, pyFloatMantissa, spanDigits, parseExp, readDigits,
      digitVal, scalePow10, pow10]
    try norm_num
  · norm_num [claimedDecimalG]

/-- C10 (amended): the binary suffixes behave as claimed — for every clean
numeral, `"<n>Gi"` returns `n` and `"<n>Mi"` returns `n/1024`, so
`"1024Mi" = "1Gi" = 1.0` and `"512Mi" = 0.5` exactly — but the decimal
suffixes are NOT distinguished from the binary ones: `"<n>G"` also returns
`n` and `"<n>M"` also returns `n/1024`, and the binary suffix `Ki` is not
recognised at all (its uppercased form matches no branch and falls through
to `float()`, which raises). -/
theorem C10_memory_suffix_semantics :
    (∀ (cs : List Char) (q : ℚ), (∀ c ∈ cs, numChar c = true) →
      pyFloatChars cs = some q →
      parse_mem_to_gb (.str (String.mk (cs ++ ['G', 'i']))) = .ok q ∧
      parse_mem_to_gb (.str (String.mk (cs ++ ['G']))) = .ok q ∧
      parse_mem_to_gb (.str (String.mk (cs ++ ['M', 'i']))) = .ok (q / 1024) ∧
      parse_mem_to_gb (.str (String.mk (cs ++ ['M']))) = .ok (q / 1024)) ∧
    parse_mem_to_gb (.str "1024Mi") = .ok 1 ∧
    parse_mem_to_gb (.str "1Gi") = .ok 1 ∧
    parse_mem_to_gb (.str "512Mi") = .ok (1 / 2) ∧
    parse_mem_to_gb (.str "1Ki") = .error "ValueError" := by
  refine ⟨fun cs q hclean hq =>
    ⟨lem_parse_mem_Gi cs q hclean hq, lem_parse_mem_G cs q hclean hq,
     lem_parse_mem_Mi cs q hclean hq, lem_parse_mem_M cs q hclean hq⟩, ?_, ?_, ?_, rfl⟩
  · simp [parse_mem_to_gb, pyStrip, stripLeft, isPyWs, pyUpper, pyUpperChar, endsWithCL,
      takeLast, dropLast', pyFloatChars, pyFloatMantissa, spanDigits, parseExp, readDigits,
      digitVal, scalePow10, pow10]
    try norm_num
  · simp [parse_mem_to_gb, pyStrip, stripLeft, isPyWs, pyUpper, pyUpperChar, endsWithCL,
      takeLast, dropLast', pyFloatChars, pyFloatMantissa, spanDigits, parseExp, readDigits,
      digitVal, scalePow10, pow10]
    try norm_num
  · simp [parse_mem_to_gb, pyStrip, stripLeft, isPyWs, pyUpper, pyUpperChar, endsWithCL,
      takeLast, dropLast', pyFloatChars, pyFloatMantissa, spanDigits, parseExp, readDigits,
      digitVal, scalePow10, pow10]
    try norm_num

/-- C10 (witness): the universal part applied to the numeral `512`. -/
theorem C10_memory_suffix_semantics_witness :
    parse_mem_to_gb (.str (String.mk (['5', '1', '2'] ++ ['M', 'i']))) = .ok (512 / 1024) := by
  have h := C10_memory_suffix_semantics.1 ['5', '1', '2'] 512 (by decide)
    (by simp [pyFloatChars, pyStrip, stripLeft, isPyWs, pyFloatMantissa, spanDigits,
      parseExp, readDigits, digitVal, scalePow10, pow10])
  exact h.2.2.1

theorem lem_wellFormed_fallback (e rk ns : String) (r : RightsizingResult) :
    wellFormedRec (.obj (fallbackRec e rk ns r)) = true := rfl

theorem lem_genRec_raises (wd : Obj) (msg : String) (r : RightsizingResult)
    (h1 : promptOk wd = true) (h2 : compute_rightsizing wd = .ok r) :
    generate_recommendation wd (.raises msg) =
      .ok (.obj (fallbackRec fbExplanation "medium" fbNextStep r)) := by
  have htb : genRecTryBody wd (.raises msg) =
      .ok (.obj (fallbackRec fbExplanation "medium" fbNextStep r)) := by
    unfold genRecTryBody call_ai_model
    simp [pyGetD, pyGet, truthy, h2, Except.map]
  simp [generate_recommendation, h1, htb]

theorem lem_genRec_body (wd : Obj) (rd : Obj) (r : RightsizingResult)
    (h2 : compute_rightsizing wd = .ok r) :
    (∃ e rk ns, genRecTryBody wd (.returns rd) = .ok (.obj (fallbackRec e rk ns r))) ∨
    (∃ s v, pyGetD rd "response" .null = .str s ∧ json_loads s = .ok v ∧
      genRecTryBody wd (.returns rd) = .ok v) ∨
    (∃ e, genRecTryBody wd (.returns rd) = .error e) := by
  unfold genRecTryBody call_ai_model
  by_cases hf : truthy (pyGetD rd "fallback_used" .null) = true
  · exact Or.inl ⟨_, _, _, by rw [if_pos hf, h2]; rfl⟩
  · rw [if_neg hf]
    by_cases hs : pyEqStr (pyGetD rd "status" .null) "fallback" = true
    · exact Or.inl ⟨_, _, _, by rw [if_pos hs, h2]; rfl⟩
    · rw [if_neg hs]
      by_cases hr : hasKey rd "response" = true
      · rw [if_pos hr]
        cases hv : pyGetD rd "response" .null with
        | str s =>
            cases hj : json_loads s with
            | ok v => exact Or.inr (Or.inl ⟨s, v, rfl, hj, hj⟩)
            | error e => exact Or.inr (Or.inr ⟨e, hj⟩)
        | null => exact Or.inr (Or.inr ⟨"TypeError", rfl⟩)
        | bool b => exact Or.inr (Or.inr ⟨"TypeError", rfl⟩)
        | num q => exact Or.inr (Or.inr ⟨"TypeError", rfl⟩)
        | list xs => exact Or.inr (Or.inr ⟨"TypeError", rfl⟩)
        | obj o => exact Or.inr (Or.inr ⟨"TypeError", rfl⟩)
      · rw [if_neg hr]
        exact Or.inl ⟨_, _, _, by rw [h2]; rfl⟩

/-- C1 (amended): for a workload sample whose prompt fields are present
(with numeric format fields) and whose resource fields parse, no exception
escapes `generate_recommendation` — every call returns a value — and on
every FAILURE path (backend exception, `fallback_used`/`status: fallback`
response, missing `response` key, non-string or malformed JSON payload) that
value is a well-formed six-field Recommendation; but on the success path the
function returns the backend's decoded JSON verbatim (ai_advisor.py lines
313-316), which need not contain the five contract fields. -/
theorem C1_recommendation_totality (wd : Obj) (ai : AIOutcome) (r : RightsizingResult)
    (h1 : promptOk wd = true) (h2 : compute_rightsizing wd = .ok r) :
    ∃ v, generate_recommendation wd ai = .ok v ∧
      (wellFormedRec v = true ∨
        ∃ rd s, ai = .returns rd ∧ pyGetD rd "response" .null = .str s ∧
          json_loads s = .ok v) := by
  cases ai with
  | raises msg =>
      exact ⟨.obj (fallbackRec fbExplanation "medium" fbNextStep r),
        lem_genRec_raises wd msg r h1 h2, Or.inl (lem_wellFormed_fallback _ _ _ _)⟩
  | returns rd =>
      rcases lem_genRec_body wd rd r h2 with ⟨e, rk, ns, htb⟩ | ⟨s, v, hv, hj, htb⟩ | ⟨e, htb⟩
      · refine ⟨.obj (fallbackRec e rk ns r), ?_, Or.inl (lem_wellFormed_fallback e rk ns r)⟩
        simp [generate_recommendation, h1, htb]
      · refine ⟨v, ?_, Or.inr ⟨rd, s, rfl, hv, hj⟩⟩
        simp [generate_recommendation, h1, htb]
      · refine ⟨.obj (fallbackRec ("Error: " ++ e ++
            ". Rightsizing recommendation based on actual usage patterns.") "high"
            "Fix AI integration" r), ?_,
          Or.inl (lem_wellFormed_fallback _ _ _ _)⟩
        simp [generate_recommendation, h1, htb, h2, Except.map]

/-- The repository's own sample workload (ai_advisor.py lines 344-356,
rendered as the dict `generate_recommendation` receives). -/
def sampleWorkload : Obj :=
  [("name", .str "my-app"), ("kind", .str "Deployment"), ("namespace", .str "default"),
   ("cpu_requested", .num 2), ("cpu_used", .num (3 / 10)), ("cpu_utilization", .num 15),
   ("memory_requested", .num 4), ("memory_used", .num (6 / 5)),
   ("memory_utilization", .num 30), ("current_cost", .num 150), ("current_carbon", .num 25)]

/-- C1 (counterexample): when the backend replies with the decodable JSON
text `\x7b\x7d`, `generate_recommendation` returns the decoded empty object
verbatim — a Recommendation carrying NONE of the five contract fields. -/
theorem C1_counterexample :
    generate_recommendation sampleWorkload (.returns [("response", .str "\x7b\x7d")]) =
      .ok (.obj []) ∧
    wellFormedRec (.obj []) = false := ⟨rfl, rfl⟩

/-- C1 (witness): totality applied to the sample workload and a raising
backend. -/
theorem C1_recommendation_totality_witness :
    ∃ v, generate_recommendation sampleWorkload (.raises "boom") = .ok v ∧
      (wellFormedRec v = true ∨
        ∃ rd s, AIOutcome.raises "boom" = .returns rd ∧
          pyGetD rd "response" .null = .str s ∧ json_loads s = .ok v) :=
  C1_recommendation_totality sampleWorkload (.raises "boom")
    { suggested_cpu := max (1 / 1000) ((3 / 10) * DEFAULT_BUFFER)
      suggested_mem_gb := max (1 / 1000) ((6 / 5) * DEFAULT_BUFFER)
      monthly_saving_usd :=
        ((if max (1 / 1000) ((3 / 10) * DEFAULT_BUFFER) < 2 * REDUCTION_THRESHOLD
            then 2 - max (1 / 1000) ((3 / 10) * DEFAULT_BUFFER) else 0) * COST_PER_CPU_HOUR +
         (if max (1 / 1000) ((6 / 5) * DEFAULT_BUFFER) <
              4 / (1024 * 1024 * 1024) * REDUCTION_THRESHOLD
            then 4 / (1024 * 1024 * 1024) - max (1 / 1000) ((6 / 5) * DEFAULT_BUFFER)
            else 0) * COST_PER_GB_HOUR) * HOURS_PER_MONTH }
    rfl
    (compute_rightsizing_eval sampleWorkload 2 (4 / (1024 * 1024 * 1024))
      (3 / 10) (6 / 5) rfl rfl rfl rfl)

/-- C2 (confirmed): when the advisory backend raises (its retries exhausted,
`call_ai_model` converts this to the `fallback_used` dict),
`generate_recommendation` returns the six-field fallback Recommendation
whose numeric fields are EXACTLY the `suggested_cpu` / `suggested_mem_gb` /
`monthly_saving_usd` of `compute_rightsizing` on the same sample, and whose
fixed explanation text — beginning "AI analysis unavailable" — is the
marker identifying it as fallback-derived (the code has no separate
provenance field; this text plus the fixed risk/next-step values are the
fallback provenance marker). -/
theorem C2_fallback_equals_estimator (wd : Obj) (msg : String) (r : RightsizingResult)
    (h1 : promptOk wd = true) (h2 : compute_rightsizing wd = .ok r) :
    generate_recommendation wd (.raises msg) =
      .ok (.obj (fallbackRec fbExplanation "medium" fbNextStep r)) ∧
    pyGet (fallbackRec fbExplanation "medium" fbNextStep r) "explanation" =
      some (.str fbExplanation) ∧
    fbExplanation = "AI analysis unavailable" ++
      ". Rightsizing recommendation based on actual usage patterns." ∧
    pyGet (fallbackRec fbExplanation "medium" fbNextStep r) "recommended_cpu" =
      some (.num r.suggested_cpu) ∧
    pyGet (fallbackRec fbExplanation "medium" fbNextStep r) "recommended_memory" =
      some (.num r.suggested_mem_gb) ∧
    pyGet (fallbackRec fbExplanation "medium" fbNextStep r) "estimated_savings" =
      some (.num r.monthly_saving_usd) :=
  ⟨lem_genRec_raises wd msg r h1 h2, rfl, rfl, rfl, rfl, rfl⟩

/-- C2 (witness): the fallback equality at the sample workload. -/
theorem C2_fallback_equals_estimator_witness :
    generate_recommendation sampleWorkload (.raises "connection refused") =
      .ok (.obj (fallbackRec fbExplanation "medium" fbNextStep
        { suggested_cpu := max (1 / 1000) ((3 / 10) * DEFAULT_BUFFER)
          suggested_mem_gb := max (1 / 1000) ((6 / 5) * DEFAULT_BUFFER)
          monthly_saving_usd :=
            ((if max (1 / 1000) ((3 / 10) * DEFAULT_BUFFER) < 2 * REDUCTION_THRESHOLD
                then 2 - max (1 / 1000) ((3 / 10) * DEFAULT_BUFFER) else 0) *
              COST_PER_CPU_HOUR +
             (if max (1 / 1000) ((6 / 5) * DEFAULT_BUFFER) <
                  4 / (1024 * 1024 * 1024) * REDUCTION_THRESHOLD
                then 4 / (1024 * 1024 * 1024) - max (1 / 1000) ((6 / 5) * DEFAULT_BUFFER)
                else 0) * COST_PER_GB_HOUR) * HOURS_PER_MONTH })) :=
  (C2_fallback_equals_estimator sampleWorkload "connection refused" _ rfl
    (compute_rightsizing_eval sampleWorkload 2 (4 / (1024 * 1024 * 1024))
      (3 / 10) (6 / 5) rfl rfl rfl rfl)).1

theorem lem_isConf095_secRec (d : String) (conf : ℚ) (risk rem : String) :
    isConf095 (secRec d conf risk rem) = (conf == 19 / 20) := rfl

theorem lem_isHigh_secRec (d : String) (conf : ℚ) (risk rem : String) :
    isHighRisk (secRec d conf risk rem) = (risk == "high") := rfl

theorem lem_conf_priv (n : String) : isConf095 (privilegedRec n) = true := by
  simp [privilegedRec, lem_isConf095_secRec]

theorem lem_conf_wl : isConf095 wlMissingSecCtxRec = false := by
  simp [wlMissingSecCtxRec, lem_isConf095_secRec]
  norm_num

theorem lem_conf_runAs : isConf095 runAsNonRootRec = false := by
  simp [runAsNonRootRec, lem_isConf095_secRec]
  norm_num

theorem lem_conf_readOnly : isConf095 readOnlyRootRec = false := by
  simp [readOnlyRootRec, lem_isConf095_secRec]
  norm_num

theorem lem_conf_cMissing (n : String) : isConf095 (containerMissingSecCtxRec n) = false := by
  simp [containerMissingSecCtxRec, lem_isConf095_secRec]
  norm_num

theorem lem_conf_caps (n : String) : isConf095 (capabilitiesRec n) = false := by
  simp [capabilitiesRec, lem_isConf095_secRec]
  norm_num

theorem lem_conf_res (n : String) : isConf095 (resourceLimitsRec n) = false := by
  simp [resourceLimitsRec, lem_isConf095_secRec]
  norm_num

theorem lem_conf_host (n : String) : isConf095 (hostPathRec n) = false := by
  simp [hostPathRec, lem_isConf095_secRec]
  norm_num

theorem lem_high_priv (n : String) : isHighRisk (privilegedRec n) = true := by
  simp [privilegedRec, lem_isHigh_secRec]

theorem lem_high_host (n : String) : isHighRisk (hostPathRec n) = true := by
  simp [hostPathRec, lem_isHigh_secRec]

theorem lem_high_wl : isHighRisk wlMissingSecCtxRec = false := by
  simp [wlMissingSecCtxRec, lem_isHigh_secRec]

theorem lem_high_runAs : isHighRisk runAsNonRootRec = false := by
  simp [runAsNonRootRec, lem_isHigh_secRec]

theorem lem_high_readOnly : isHighRisk readOnlyRootRec = false := by
  simp [readOnlyRootRec, lem_isHigh_secRec]

theorem lem_high_cMissing (n : String) : isHighRisk (containerMissingSecCtxRec n) = false := by
  simp [containerMissingSecCtxRec, lem_isHigh_secRec]

theorem lem_high_caps (n : String) : isHighRisk (capabilitiesRec n) = false := by
  simp [capabilitiesRec, lem_isHigh_secRec]

theorem lem_high_res (n : String) : isHighRisk (resourceLimitsRec n) = false := by
  simp [resourceLimitsRec, lem_isHigh_secRec]

theorem lem_pod_mem (ts : Obj) :
    ∀ rec ∈ (podSecRecs ts).1,
      rec = wlMissingSecCtxRec ∨ rec = runAsNonRootRec ∨ rec = readOnlyRootRec := by
  intro rec hrec
  unfold podSecRecs at hrec
  split at hrec
  · simp at hrec
    exact Or.inl hrec
  · split at hrec
    · next sc =>
        simp only at hrec
        rcases List.mem_append.mp hrec with h | h
        · split at h
          · simp at h
            exact Or.inr (Or.inl h)
          · simp at h
        · split at h
          · simp at h
            exact Or.inr (Or.inr h)
          · simp at h
    · simp at hrec

theorem lem_cont_mem (cs : List Val) (i : ℕ) :
    ∀ rec ∈ (containerSecRecs cs i).1,
      (∃ n, rec = containerMissingSecCtxRec n) ∨ (∃ n, rec = capabilitiesRec n) ∨
      (∃ n, rec = privilegedRec n) := by
  induction cs generalizing i with
  | nil => intro rec hrec; simp [containerSecRecs] at hrec
  | cons c t ih =>
      intro rec hrec
      unfold containerSecRecs at hrec
      split at hrec
      · next co =>
          split at hrec
          · simp only at hrec
            rcases List.mem_cons.mp hrec with h | h
            · exact Or.inl ⟨_, h⟩
            · exact ih (i + 1) rec h
          · split at hrec
            · next csc =>
                simp only at hrec
                rcases List.mem_append.mp hrec with h | h
                · rcases List.mem_append.mp h with h2 | h2
                  · split at h2
                    · simp at h2
                      exact Or.inr (Or.inl ⟨_, h2⟩)
                    · simp at h2
                  · split at h2
                    · simp at h2
                      exact Or.inr (Or.inr ⟨_, h2⟩)
                    · simp at h2
                · exact ih (i + 1) rec h
            · simp at hrec
      · simp at hrec

theorem lem_res_mem (cs : List Val) (i : ℕ) :
    ∀ rec ∈ (resourceSecRecs cs i).1, ∃ n, rec = resourceLimitsRec n := by
  induction cs generalizing i with
  | nil => intro rec hrec; simp [resourceSecRecs] at hrec
  | cons c t ih =>
      intro rec hrec
      unfold resourceSecRecs at hrec
      split at hrec
      · next co =>
          split at hrec
          · simp only at hrec
            rcases List.mem_cons.mp hrec with h | h
            · exact ⟨_, h⟩
            · exact ih (i + 1) rec h
          · split at hrec
            · next resO =>
                split at hrec
                · simp only at hrec
                  rcases List.mem_cons.mp hrec with h | h
                  · exact ⟨_, h⟩
                  · exact ih (i + 1) rec h
                · exact ih (i + 1) rec hrec
            · simp at hrec
      · simp at hrec

theorem lem_vol_mem (vs : List Val) :
    ∀ rec ∈ (volumeSecRecs vs).1, ∃ n, rec = hostPathRec n := by
  induction vs with
  | nil => intro rec hrec; simp [volumeSecRecs] at hrec
  | cons v t ih =>
      intro rec hrec
      unfold volumeSecRecs at hrec
      split at hrec
      · next vo =>
          split at hrec
          · simp only at hrec
            rcases List.mem_cons.mp hrec with h | h
            · exact ⟨_, h⟩
            · exact ih rec h
          · exact ih rec hrec
      · simp at hrec

def podOk (ts : Obj) : Bool :=
  match pyGet ts "securityContext" with
  | some v => (asObj v).isSome
  | none => true

def contOk (c : Val) : Bool :=
  match c with
  | .obj co =>
      (match pyGet co "securityContext" with
       | some v => (asObj v).isSome
       | none => true)
  | _ => false

theorem lem_pod_noabort (ts : Obj) (h : podOk ts = true) : (podSecRecs ts).2 = false := by
  unfold podSecRecs
  split
  · rfl
  · next hk =>
      unfold podOk at h
      rw [Bool.not_eq_false] at hk
      unfold hasKey at hk
      cases hv : pyGet ts "securityContext" with
      | none => rw [hv] at hk; simp at hk
      | some v =>
          rw [hv] at h
          cases v <;> simp [asObj] at h <;> simp [pyGetD, hv]

theorem lem_countP_zero (l : List Obj) (p : Obj → Bool) (h : ∀ x ∈ l, p x = false) :
    l.countP p = 0 :=
  List.countP_eq_zero.mpr (by intro a ha; simp [h a ha])


theorem lem_cont_count (cs : List Val) (i : ℕ) (h : ∀ c ∈ cs, contOk c = true) :
    (containerSecRecs cs i).1.countP isConf095 = cs.countP isPrivilegedC ∧
    (containerSecRecs cs i).2 = false := by
  induction cs generalizing i with
  | nil => simp [containerSecRecs]
  | cons c t ih =>
      have hc := h c (List.mem_cons_self c t)
      obtain ⟨ihc, ihf⟩ := ih (i + 1) (fun x hx => h x (List.mem_cons_of_mem c hx))
      cases c with
      | obj co =>
          by_cases hk : hasKey co "securityContext" = false
          · have hstep : containerSecRecs (.obj co :: t) i =
                (containerMissingSecCtxRec (cnameOf co i) :: (containerSecRecs t (i + 1)).1,
                 (containerSecRecs t (i + 1)).2) := by
              simp only [containerSecRecs]
              rw [if_pos hk]
            have hp : isPrivilegedC (.obj co) = false := by
              unfold hasKey at hk
              cases hv : pyGet co "securityContext" with
              | none => simp only [isPrivilegedC, hv]
              | some v => rw [hv] at hk; simp at hk
            rw [hstep]
            constructor
            · simp only [List.countP_cons, lem_conf_cMissing, hp, ihc]
              try simp
            · exact ihf
          · simp only [contOk] at hc
            rw [Bool.not_eq_false] at hk
            have hk' : ¬ hasKey co "securityContext" = false := by simp [hk]
            unfold hasKey at hk
            cases hv : pyGet co "securityContext" with
            | none => rw [hv] at hk; simp at hk
            | some v =>
                rw [hv] at hc
                cases v with
                | obj sc =>
                    have hstep : containerSecRecs (.obj co :: t) i =
                        ((if hasKey sc "capabilities" = false
                            then [capabilitiesRec (cnameOf co i)] else []) ++
                         (if (match pyGet sc "privileged" with
                              | some (Val.bool true) => true
                              | _ => false) = true
                            then [privilegedRec (cnameOf co i)] else []) ++
                         (containerSecRecs t (i + 1)).1,
                         (containerSecRecs t (i + 1)).2) := by
                      simp only [containerSecRecs]
                      rw [if_neg hk']
                      simp only [pyGetD, hv]
                    have hpc : isPrivilegedC (.obj co) = (match pyGet sc "privileged" with
                        | some (Val.bool true) => true
                        | _ => false) := by
                      simp only [isPrivilegedC, hv]
                    rw [hstep]
                    constructor
                    · rw [List.countP_append, List.countP_append]
                      have hcaps : (if hasKey sc "capabilities" = false
                          then [capabilitiesRec (cnameOf co i)] else []).countP isConf095 = 0 := by
                        split
                        · simp [List.countP_cons, lem_conf_caps]
                        · rfl
                      rw [hcaps, ihc, List.countP_cons, hpc]
                      split
                      · next hcond =>
                          simp [List.countP_cons, lem_conf_priv, hcond]
                          try omega
                      · next hcond =>
                          simp only [Bool.not_eq_true] at hcond
                          simp [hcond]
                    · exact ihf
                | null => simp [asObj] at hc
                | bool b => simp [asObj] at hc
                | num q => simp [asObj] at hc
                | str s => simp [asObj] at hc
                | list xs => simp [asObj] at hc
      | null => simp [contOk] at hc
      | bool b => simp [contOk] at hc
      | num q => simp [contOk] at hc
      | str s => simp [contOk] at hc
      | list xs => simp [contOk] at hc

def SecShape (rec : Obj) : Prop :=
  rec = wlMissingSecCtxRec ∨ rec = runAsNonRootRec ∨ rec = readOnlyRootRec ∨
  (∃ n, rec = containerMissingSecCtxRec n) ∨ (∃ n, rec = capabilitiesRec n) ∨
  (∃ n, rec = privilegedRec n) ∨ (∃ n, rec = resourceLimitsRec n) ∨
  (∃ n, rec = hostPathRec n)

theorem lem_pod_shape (ts : Obj) : ∀ rec ∈ (podSecRecs ts).1, SecShape rec := by
  intro rec hrec
  rcases lem_pod_mem ts rec hrec with h | h | h
  · exact Or.inl h
  · exact Or.inr (Or.inl h)
  · exact Or.inr (Or.inr (Or.inl h))

theorem lem_cont_shape (cs : List Val) (i : ℕ) :
    ∀ rec ∈ (containerSecRecs cs i).1, SecShape rec := by
  intro rec hrec
  rcases lem_cont_mem cs i rec hrec with h | h | h
  · exact Or.inr (Or.inr (Or.inr (Or.inl h)))
  · exact Or.inr (Or.inr (Or.inr (Or.inr (Or.inl h))))
  · exact Or.inr (Or.inr (Or.inr (Or.inr (Or.inr (Or.inl h)))))

theorem lem_sec_mem (wd : Obj) : ∀ rec ∈ analyze_security wd, SecShape rec := by
  intro rec hrec
  unfold analyze_security at hrec
  cases hts : secTemplateSpec wd with
  | none => rw [hts] at hrec; simp at hrec
  | some ts =>
      rw [hts] at hrec
      simp only at hrec
      split at hrec
      · exact lem_pod_shape ts rec hrec
      · split at hrec
        · next cs _ =>
            split at hrec
            · rcases List.mem_append.mp hrec with h | h
              · exact lem_pod_shape ts rec h
              · exact lem_cont_shape cs 0 rec h
            · split at hrec
              · rcases List.mem_append.mp hrec with h | h
                · rcases List.mem_append.mp h with h2 | h2
                  · exact lem_pod_shape ts rec h2
                  · exact lem_cont_shape cs 0 rec h2
                · exact Or.inr (Or.inr (Or.inr (Or.inr (Or.inr (Or.inr (Or.inl
                    (lem_res_mem cs 0 rec h)))))))
              · split at hrec
                · next vs _ =>
                    rcases List.mem_append.mp hrec with h | h
                    · rcases List.mem_append.mp h with h2 | h2
                      · rcases List.mem_append.mp h2 with h3 | h3
                        · exact lem_pod_shape ts rec h3
                        · exact lem_cont_shape cs 0 rec h3
                      · exact Or.inr (Or.inr (Or.inr (Or.inr (Or.inr (Or.inr (Or.inl
                          (lem_res_mem cs 0 rec h2)))))))
                    · exact Or.inr (Or.inr (Or.inr (Or.inr (Or.inr (Or.inr (Or.inr
                        (lem_vol_mem vs rec h)))))))
                · rcases List.mem_append.mp hrec with h | h
                  · rcases List.mem_append.mp h with h2 | h2
                    · exact lem_pod_shape ts rec h2
                    · exact lem_cont_shape cs 0 rec h2
                  · exact Or.inr (Or.inr (Or.inr (Or.inr (Or.inr (Or.inr (Or.inl
                      (lem_res_mem cs 0 rec h)))))))
        · exact lem_pod_shape ts rec hrec

theorem lem_pod_count0 (ts : Obj) : (podSecRecs ts).1.countP isConf095 = 0 := by
  apply lem_countP_zero
  intro x hx
  rcases lem_pod_mem ts x hx with h | h | h <;> rw [h]
  · exact lem_conf_wl
  · exact lem_conf_runAs
  · exact lem_conf_readOnly

theorem lem_res_count0 (cs : List Val) (i : ℕ) :
    (resourceSecRecs cs i).1.countP isConf095 = 0 := by
  apply lem_countP_zero
  intro x hx
  obtain ⟨n, h⟩ := lem_res_mem cs i x hx
  rw [h]
  exact lem_conf_res n

theorem lem_vol_count0 (vs : List Val) : (volumeSecRecs vs).1.countP isConf095 = 0 := by
  apply lem_countP_zero
  intro x hx
  obtain ⟨n, h⟩ := lem_vol_mem vs x hx
  rw [h]
  exact lem_conf_host n

theorem lem_sec_count (wd : Obj) (ts : Obj) (cs : List Val)
    (hts : secTemplateSpec wd = some ts)
    (hcs : pyGetD ts "containers" (.list []) = .list cs)
    (hpod : podOk ts = true)
    (hcont : ∀ c ∈ cs, contOk c = true) :
    (analyze_security wd).countP isConf095 = cs.countP isPrivilegedC := by
  obtain ⟨hcount, hflag⟩ := lem_cont_count cs 0 hcont
  simp only [analyze_security, hts, lem_pod_noabort ts hpod, hcs, hflag,
    Bool.false_eq_true, if_false]
  by_cases hrr : (resourceSecRecs cs 0).2 = true
  · rw [if_pos hrr]
    rw [List.countP_append, List.countP_append, lem_pod_count0, lem_res_count0, hcount]
    omega
  · rw [if_neg hrr]
    cases hvv : pyGetD ts "volumes" (.list []) with
    | list vs =>
        rw [List.countP_append, List.countP_append, List.countP_append,
          lem_pod_count0, lem_res_count0, lem_vol_count0, hcount]
        omega
    | null =>
        rw [List.countP_append, List.countP_append, lem_pod_count0, lem_res_count0, hcount]
        omega
    | bool b =>
        rw [List.countP_append, List.countP_append, lem_pod_count0, lem_res_count0, hcount]
        omega
    | num q =>
        rw [List.countP_append, List.countP_append, lem_pod_count0, lem_res_count0, hcount]
        omega
    | str s =>
        rw [List.countP_append, List.countP_append, lem_pod_count0, lem_res_count0, hcount]
        omega
    | obj o =>
        rw [List.countP_append, List.countP_append, lem_pod_count0, lem_res_count0, hcount]
        omega

/-- A workload whose pod spec carries only a hostPath volume. -/
def hostPathWorkload : Obj :=
  [("spec", .obj [("template", .obj [("spec", .obj
     [("volumes", .list [.obj [("name", .str "v"),
        ("hostPath", .obj [("path", .str "/var/log")])]])])])])]

/-- C6 (counterexample): privileged mode is NOT the only high-risk security
finding — a workload with a `hostPath` volume and no containers at all
produces a `risk_level: high` recommendation (confidence 0.9, security.py
lines 153-163), contradicting the claim that every non-privileged finding is
classified low or medium. -/
theorem C6_counterexample :
    analyze_security hostPathWorkload = [wlMissingSecCtxRec, hostPathRec "v"] ∧
    pyGet (hostPathRec "v") "risk_level" = some (.str "high") ∧
    pyGet (hostPathRec "v") "confidence_score" = some (.num (9 / 10)) ∧
    isConf095 (hostPathRec "v") = false ∧
    (analyze_security hostPathWorkload).countP isConf095 = 0 := by
  refine ⟨rfl, rfl, rfl, lem_conf_host "v", ?_⟩
  rw [show analyze_security hostPathWorkload = [wlMissingSecCtxRec, hostPathRec "v"] from rfl]
  simp [List.countP_cons, lem_conf_wl, lem_conf_host]

/-- C6 (amended): on well-shaped workloads (dict containers and
securityContexts), the security analysis emits exactly one
confidence-0.95 opportunity per container declaring `privileged: true`
(count equality); every 0.95-confidence finding is the high-risk privileged
one, and privileged mode is the only high-risk condition EXCEPT hostPath
volumes, which are also emitted as risk=high (with confidence 0.9); every
other finding is low or medium risk. -/
theorem C6_privileged_classification :
    (∀ (wd ts : Obj) (cs : List Val), secTemplateSpec wd = some ts →
      pyGetD ts "containers" (.list []) = .list cs →
      podOk ts = true →
      (∀ c ∈ cs, contOk c = true) →
      (analyze_security wd).countP isConf095 = cs.countP isPrivilegedC) ∧
    (∀ (wd : Obj) (rec : Obj), rec ∈ analyze_security wd → isConf095 rec = true →
      isHighRisk rec = true ∧ ∃ n, rec = privilegedRec n) ∧
    (∀ (wd : Obj) (rec : Obj), rec ∈ analyze_security wd → isHighRisk rec = true →
      (∃ n, rec = privilegedRec n) ∨ ∃ n, rec = hostPathRec n) ∧
    (∀ n, isConf095 (privilegedRec n) = true ∧ isHighRisk (privilegedRec n) = true) := by
  refine ⟨lem_sec_count, ?_, ?_, fun n => ⟨lem_conf_priv n, lem_high_priv n⟩⟩
  · intro wd rec hrec hconf
    rcases lem_sec_mem wd rec hrec with h | h | h | ⟨n, h⟩ | ⟨n, h⟩ | ⟨n, h⟩ | ⟨n, h⟩ | ⟨n, h⟩
    · rw [h, lem_conf_wl] at hconf; exact absurd hconf (by simp)
    · rw [h, lem_conf_runAs] at hconf; exact absurd hconf (by simp)
    · rw [h, lem_conf_readOnly] at hconf; exact absurd hconf (by simp)
    · rw [h, lem_conf_cMissing] at hconf; exact absurd hconf (by simp)
    · rw [h, lem_conf_caps] at hconf; exact absurd hconf (by simp)
    · exact ⟨by rw [h]; exact lem_high_priv n, n, h⟩
    · rw [h, lem_conf_res] at hconf; exact absurd hconf (by simp)
    · rw [h, lem_conf_host] at hconf; exact absurd hconf (by simp)
  · intro wd rec hrec hhigh
    rcases lem_sec_mem wd rec hrec with h | h | h | ⟨n, h⟩ | ⟨n, h⟩ | ⟨n, h⟩ | ⟨n, h⟩ | ⟨n, h⟩
    · rw [h, lem_high_wl] at hhigh; exact absurd hhigh (by simp)
    · rw [h, lem_high_runAs] at hhigh; exact absurd hhigh (by simp)
    · rw [h, lem_high_readOnly] at hhigh; exact absurd hhigh (by simp)
    · rw [h, lem_high_cMissing] at hhigh; exact absurd hhigh (by simp)
    · rw [h, lem_high_caps] at hhigh; exact absurd hhigh (by simp)
    · exact Or.inl ⟨n, h⟩
    · rw [h, lem_high_res] at hhigh; exact absurd hhigh (by simp)
    · exact Or.inr ⟨n, h⟩

/-- A workload with one privileged and one unprivileged container. -/
def privilegedWorkload : Obj :=
  [("spec", .obj [("template", .obj [("spec", .obj
     [("containers", .list
        [.obj [("name", .str "c1"),
           ("securityContext", .obj [("privileged", .bool true)])],
         .obj [("name", .str "c2"),
           ("securityContext", .obj [("runAsNonRoot", .bool true)])]])])])])]

/-- C6 (witness): the count equality on a two-container workload with one
privileged container. -/
theorem C6_privileged_classification_witness :
    (analyze_security privilegedWorkload).countP isConf095 =
      ([.obj [("name", .str "c1"), ("securityContext", .obj [("privileged", .bool true)])],
        .obj [("name", .str "c2"),
          ("securityContext", .obj [("runAsNonRoot", .bool true)])]] : List Val).countP
        isPrivilegedC := by
  exact C6_privileged_classification.1 privilegedWorkload
    [("containers", .list
       [.obj [("name", .str "c1"), ("securityContext", .obj [("privileged", .bool true)])],
        .obj [("name", .str "c2"), ("securityContext", .obj [("runAsNonRoot", .bool true)])]])]
    _ rfl rfl rfl (by decide)

/-- Writing key `k` into a dict leaves every other key's lookup unchanged. -/
theorem lem_pyGet_objSet_ne (o : Obj) (k k' : String) (v : Val) (h : k' ≠ k) :
    pyGet (objSet o k v) k' = pyGet o k' := by
  induction o with
  | nil =>
      simp only [objSet, pyGet]
      rw [if_neg (fun he => h he.symm)]
  | cons p t ih =>
      obtain ⟨pk, pv⟩ := p
      unfold objSet
      by_cases hpk : pk = k
      · rw [if_pos hpk]
        simp [pyGet, hpk, h, Ne.symm h]
      · rw [if_neg hpk]
        by_cases hpk' : pk = k'
        · simp [pyGet, hpk']
        · simp [pyGet, hpk', ih]

/-- Writing back the value a key already holds leaves the dict unchanged
(list-level identity, matching CPython dict in-place update). -/
theorem lem_objSet_id (o : Obj) (k : String) (v : Val) (h : pyGet o k = some v) :
    objSet o k v = o := by
  induction o with
  | nil => simp [pyGet] at h
  | cons p t ih =>
      obtain ⟨pk, pv⟩ := p
      unfold objSet
      by_cases hpk : pk = k
      · rw [if_pos hpk]
        rw [pyGet, if_pos hpk] at h
        obtain rfl := Option.some.inj h
        rw [hpk]
      · rw [if_neg hpk]
        rw [pyGet, if_neg hpk] at h
        rw [ih h]

/-- A container that the suggested-resources dict does not match: either it
is not a dict, has no string `name`, the workload name is absent, or the
`(workload, name)` key is missing from the dict.  (A non-dict container is
excluded: it would raise `AttributeError` in the source.) -/
def NoMatch (sugg : SuggestedResources) (wn : Option String) (c : Val) : Prop :=
  ∃ co, c = .obj co ∧
    (match wn, pyGet co "name" with
     | some w, some (.str cn) => lookupSR sugg (w, cn) = none
     | _, _ => True)

/-- An unmatched container passes through the per-container update
untouched (ai_advisor.py line 173: the `if key in suggested_resources`
guard fails and the loop body is skipped). -/
theorem lem_update_noMatch (sugg : SuggestedResources) (wn : Option String) (c : Val)
    (h : NoMatch sugg wn c) : updateContainer sugg wn c = some c := by
  obtain ⟨co, rfl, hm⟩ := h
  simp only [updateContainer]
  cases wn with
  | none => rfl
  | some w =>
      cases hn : pyGet co "name" with
      | none => rfl
      | some v =>
          cases v with
          | str cn =>
              rw [hn] at hm
              simp only at hm
              show (match lookupSR sugg (w, cn) with
                | some res =>
                    (match pyGetD co "resources" (Val.obj []) with
                     | Val.obj resO =>
                         (match pyGetD resO "requests" (Val.obj []),
                                pyGetD resO "limits" (Val.obj []) with
                          | Val.obj reqO, Val.obj limO =>
                              (match pyIntChars (rstripSet res.cpu.data ['m']),
                                     pyIntChars (rstripSet res.memory.data ['M', 'i']) with
                               | some cpu_millis, some memory_mib =>
                                   some (Val.obj (objSet co "resources" (Val.obj
                                     (objSet (objSet resO "requests" (Val.obj
                                       (objSet (objSet reqO "cpu" (Val.str res.cpu))
                                         "memory" (Val.str res.memory))))
                                       "limits" (Val.obj
                                       (objSet (objSet limO "cpu"
                                           (Val.str (mergeLimitCpu cpu_millis)))
                                         "memory" (Val.str (mergeLimitMem memory_mib))))))))
                               | _, _ => none)
                          | _, _ => none)
                     | _ => none)
                | none => some (Val.obj co)) = some (Val.obj co)
              rw [hm]
          | null => rfl
          | bool b => rfl
          | num q => rfl
          | list xs => rfl
          | obj o => rfl

/-- When no container matches, the whole container loop returns the list
unchanged. -/
theorem lem_updContainers_noMatch (sugg : SuggestedResources) (wn : Option String)
    (cs : List Val) (h : ∀ c ∈ cs, NoMatch sugg wn c) :
    updateContainers sugg (.ok wn) cs = some cs := by
  induction cs with
  | nil => rfl
  | cons c t ih =>
      simp only [updateContainers]
      rw [lem_update_noMatch sugg wn c (h c (List.mem_cons_self c t)),
        ih (fun x hx => h x (List.mem_cons_of_mem c hx))]
      rfl

/-- Frame property of the per-container update: whatever it returns is a
dict that agrees with the input on `image` and on every key other than
`resources`. -/
theorem lem_updC_frame (sugg : SuggestedResources) (wname : Option String) (co : Obj)
    (c' : Val) (h : updateContainer sugg wname (.obj co) = some c') :
    ∃ co', c' = .obj co' ∧ pyGet co' "image" = pyGet co "image" ∧
      ∀ k, k ≠ "resources" → pyGet co' k = pyGet co k := by
  simp only [updateContainer] at h
  split at h
  · split at h
    · split at h
      · split at h
        · split at h
          · obtain rfl := Option.some.inj h
            refine ⟨_, rfl, ?_, ?_⟩
            · exact lem_pyGet_objSet_ne co "resources" "image" _ (by decide)
            · intro k hk
              exact lem_pyGet_objSet_ne co "resources" k _ hk
          · exact absurd h (by simp)
        · exact absurd h (by simp)
      · exact absurd h (by simp)
    · obtain rfl := Option.some.inj h
      exact ⟨co, rfl, rfl, fun k _ => rfl⟩
  · obtain rfl := Option.some.inj h
    exact ⟨co, rfl, rfl, fun k _ => rfl⟩

/-- Document-level frame property: every patched output of
`generate_strategic_merge_patch` agrees with the input document on every
top-level key other than `spec`. -/
theorem lem_gsmp_frame (dObj : Obj) (sugg : SuggestedResources) (d' : Val)
    (h : generate_strategic_merge_patch (.obj dObj) sugg = .patched d') :
    ∃ d'Obj, d' = .obj d'Obj ∧ ∀ k, k ≠ "spec" → pyGet d'Obj k = pyGet dObj k := by
  simp only [generate_strategic_merge_patch] at h
  repeat' split at h
  all_goals cases h
  all_goals refine ⟨_, rfl, ?_⟩
  all_goals intro k hk
  all_goals first
    | exact lem_pyGet_objSet_ne dObj "spec" k _ hk
    | rfl

/-- Round-trip identity on the template path when every key read by the
patcher is already present: with `spec`, `spec.template` (truthy),
`template.spec` and `template.spec.containers` all present and no container
matched, the output document is the input document.  The presence
hypotheses are essential: `setdefault` inserts any of these keys that are
missing (see `C8_counterexample`). -/
theorem lem_gsmp_noMatch (dObj sObj tObj tsObj : Obj) (cs : List Val)
    (sugg : SuggestedResources) (wn : Option String)
    (h1 : pyGet dObj "spec" = some (.obj sObj))
    (h2 : pyGet sObj "template" = some (.obj tObj))
    (h3 : truthy (.obj tObj) = true)
    (h4 : pyGet tObj "spec" = some (.obj tsObj))
    (h5 : pyGet tsObj "containers" = some (.list cs))
    (h6 : metaName dObj = .ok wn)
    (h7 : ∀ c ∈ cs, NoMatch sugg wn c) :
    generate_strategic_merge_patch (.obj dObj) sugg = .patched (.obj dObj) := by
  simp only [generate_strategic_merge_patch, pyGetD, h1, h2, h3, h4, h5, h6, if_true]
  simp only [lem_updContainers_noMatch sugg wn cs h7]
  rw [lem_objSet_id tsObj "containers" (.list cs) h5,
      lem_objSet_id tObj "spec" (.obj tsObj) h4,
      lem_objSet_id sObj "template" (.obj tObj) h2,
      lem_objSet_id dObj "spec" (.obj sObj) h1]

/-- A document whose template has no `spec` key:
`\x7b"spec": \x7b"template": \x7b"x": 1\x7d\x7d\x7d`. -/
def C8doc : Obj := [("spec", .obj [("template", .obj [("x", .num 1)])])]

/-- C8 counterexample: with NO matching containers (the suggestion dict is
empty), `generate_strategic_merge_patch` on `C8doc` still returns a
document that is not the input: `template.setdefault(\x27spec\x27, \x7b\x7d)` and the
subsequent `containers` setdefault (ai_advisor.py lines 163-166) insert a
`spec: \x7bcontainers: []\x7d` key under the template, so the template of the
output has a `spec` key while the input template has none.  Keys ARE added,
refuting the "no keys added" part of the claim. -/
theorem C8_counterexample :
    generate_strategic_merge_patch (.obj C8doc) [] =
      .patched (.obj [("spec", .obj [("template", .obj [("x", .num 1),
        ("spec", .obj [("containers", .list [])])])])]) ∧
    (match generate_strategic_merge_patch (.obj C8doc) [] with
     | .patched (.obj d) =>
        (match pyGet d "spec" with
         | some (.obj s) =>
            (match pyGet s "template" with
             | some (.obj t) => hasKey t "spec"
             | _ => false)
         | _ => false)
     | _ => false) = true ∧
    (match pyGet C8doc "spec" with
     | some (.obj s) =>
        (match pyGet s "template" with
         | some (.obj t) => hasKey t "spec"
         | _ => true)
     | _ => true) = false := by
  exact ⟨rfl, rfl, rfl⟩

/-- C8 (corrected): frame properties of merge mode
(`generate_strategic_merge_patch`, ai_advisor.py lines 141-196).
(i) The per-container update never alters a container's `image` field or
any sibling field outside its `resources` block.  (ii) Every patched
output document agrees with the input on every top-level key other than
`spec`.  (iii) When no container matches the suggested `(workload, name)`
keys AND every dict key the patcher reads (`spec`, `spec.template`,
`template.spec`, `template.spec.containers`) is already present with the
template truthy, the output document is identical to the input.  The
presence proviso corrects the original claim: on documents missing one of
those keys, `setdefault` inserts it, so the no-match round trip is NOT the
identity (see `C8_counterexample`). -/
theorem C8_merge_frame (sugg : SuggestedResources) :
    (∀ (wname : Option String) (co : Obj) (c' : Val),
        updateContainer sugg wname (.obj co) = some c' →
        ∃ co', c' = .obj co' ∧ pyGet co' "image" = pyGet co "image" ∧
          ∀ k, k ≠ "resources" → pyGet co' k = pyGet co k) ∧
    (∀ (dObj : Obj) (d' : Val),
        generate_strategic_merge_patch (.obj dObj) sugg = .patched d' →
        ∃ d'Obj, d' = .obj d'Obj ∧ ∀ k, k ≠ "spec" → pyGet d'Obj k = pyGet dObj k) ∧
    (∀ (dObj sObj tObj tsObj : Obj) (cs : List Val) (wn : Option String),
        pyGet dObj "spec" = some (.obj sObj) →
        pyGet sObj "template" = some (.obj tObj) →
        truthy (.obj tObj) = true →
        pyGet tObj "spec" = some (.obj tsObj) →
        pyGet tsObj "containers" = some (.list cs) →
        metaName dObj = .ok wn →
        (∀ c ∈ cs, NoMatch sugg wn c) →
        generate_strategic_merge_patch (.obj dObj) sugg = .patched (.obj dObj)) :=
  ⟨fun wname co c' h => lem_updC_frame sugg wname co c' h,
   fun dObj d' h => lem_gsmp_frame dObj sugg d' h,
   fun dObj sObj tObj tsObj cs wn h1 h2 h3 h4 h5 h6 h7 =>
     lem_gsmp_noMatch dObj sObj tObj tsObj cs sugg wn h1 h2 h3 h4 h5 h6 h7⟩

/-- A deployment-shaped document (workload `demo`, one container `web`)
with every key the patcher reads present. -/
def C8wDoc : Obj :=
  [("metadata", .obj [("name", .str "demo")]),
   ("spec", .obj [("template", .obj
     [("spec", .obj [("containers", .list
       [.obj [("name", .str "web"), ("image", .str "nginx")]])])])])]

/-- A suggestion dict keyed by a different workload, so no container of
`C8wDoc` matches. -/
def C8sugg : SuggestedResources := [(("other", "web"), ⟨"100m", "128Mi"⟩)]

/-- Witness for C8: on the concrete `C8wDoc` with the non-matching
`C8sugg`, the patcher returns the document unchanged. -/
theorem C8_merge_frame_witness :
    generate_strategic_merge_patch (.obj C8wDoc) C8sugg = .patched (.obj C8wDoc) := by
  refine (C8_merge_frame C8sugg).2.2 C8wDoc
    [("template", .obj [("spec", .obj [("containers", .list
       [.obj [("name", .str "web"), ("image", .str "nginx")]])])])]
    [("spec", .obj [("containers", .list
       [.obj [("name", .str "web"), ("image", .str "nginx")]])])]
    [("containers", .list [.obj [("name", .str "web"), ("image", .str "nginx")]])]
    [.obj [("name", .str "web"), ("image", .str "nginx")]]
    (some "demo") rfl rfl rfl rfl rfl rfl ?_
  intro c hc
  rcases List.mem_singleton.mp hc with rfl
  exact ⟨[("name", .str "web"), ("image", .str "nginx")], rfl, rfl⟩
